import Mathlib

/-!
# Database-NoSQL: CPF validation and the JSON client store

A shallow embedding of the validation and identity-management core of the
repository (`cliente.js`, `index.js`, `crudUpdate.js`, `crudRead.js`,
`crudDelete.js`).

Conventions of the embedding:

* a JavaScript string is a Lean `String`; the regular expressions of the source
  use no unicode flag and only classes (`\d`, `\s`, `@`, `.`) that lie in the
  Basic Multilingual Plane, so matching character by character agrees with
  matching UTF-16 code unit by code unit (a character outside that plane is two
  code units, neither a digit, a space nor `@`);
* the JSON file `dados/clientes.json` is the state: a list of client records,
  passed in and returned explicitly (`carregarClientes` / `salvarClientes`);
* `new Date().toISOString()` is a parameter `agora` of each operation;
* `atualizarClienteJSON` of `crudUpdate.js` works on the same file and the same
  records; its email regex is matched by the derivative matcher of Mathlib over
  the classes of characters that the regex tells apart;
* the collection of the document store of `crudDelete.js` is a list of documents
  in its natural order; `findOneAndUpdate` and `findOneAndDelete` act on the first
  document that matches the filter, and the unique index on `cpf` is a hypothesis
  of the statements about that store;
* the built-in `toLowerCase` is a parameter of the search by name;
* console output is dropped.
-/

namespace DatabaseNoSQL

/-! ## Character classes and string helpers -/

/-- The regex class `\d` without the unicode flag: an ASCII digit. -/
def ehDigito (c : Char) : Bool :=
  decide (48 ≤ c.toNat) && decide (c.toNat ≤ 57)

/-- The regex class `\s`, which is also the set removed by `String.prototype.trim`:
ECMAScript WhiteSpace and LineTerminator code points. -/
def ehEspaco (c : Char) : Bool :=
  let n := c.toNat
  n == 0x09 || n == 0x0A || n == 0x0B || n == 0x0C || n == 0x0D || n == 0x20 ||
  n == 0xA0 || n == 0x1680 || (decide (0x2000 ≤ n) && decide (n ≤ 0x200A)) ||
  n == 0x2028 || n == 0x2029 || n == 0x202F || n == 0x205F || n == 0x3000 ||
  n == 0xFEFF

/-- JavaScript `s.trim()`. -/
def trim (s : String) : String :=
  ⟨(s.data.dropWhile ehEspaco).rdropWhile ehEspaco⟩

/-- JavaScript `cpf.replace(/[^\d]/g, '')`: every non-digit is removed. -/
def apenasDigitos (cpf : String) : String :=
  ⟨cpf.data.filter ehDigito⟩

/-- JavaScript `parseInt(c)` for a one-character string holding a digit. -/
def parseInt (c : Char) : Nat :=
  c.toNat - 48

/-- JavaScript `cpf.charAt(i)` (equally `cpf.substring(i, i+1)`). The validators
call it only with `i < 11 = cpf.length`, so the default is never produced. -/
def charAt (cpf : String) (i : Nat) : Char :=
  cpf.data.getD i '0'

/-- The test `/^(\d)\1{10}$/.test(cpf)`: one digit followed by ten copies of it. -/
def todosIguais (cpf : String) : Bool :=
  match cpf.data with
  | [] => false
  | c :: resto => ehDigito c && decide (resto.length = 10) && resto.all (fun x => x == c)

/-- JavaScript `s.replace(/(\d{3})(\d{3})(\d{3})(\d{2})/, '$1.$2.$3-$4')` on the
characters of `s`: the leftmost run of eleven digits is rewritten, the rest of the
string is kept; without a match the string is returned as it is. -/
def substituirPadrao : List Char → List Char
  | [] => []
  | c :: resto =>
    if 11 ≤ (c :: resto).length ∧ ((c :: resto).take 11).all ehDigito = true then
      (c :: resto).take 3 ++ '.' :: ((c :: resto).drop 3).take 3 ++
        '.' :: ((c :: resto).drop 6).take 3 ++ '-' :: ((c :: resto).drop 9).take 2 ++
        (c :: resto).drop 11
    else c :: substituirPadrao resto

/-- The class `[^\s@]+` matched against a whole run of characters. -/
def blocoEmail (l : List Char) : Bool :=
  !l.isEmpty && l.all (fun c => !ehEspaco c && c != '@')

/-- The test `/^[^\s@]+@[^\s@]+\.[^\s@]+$/.test(s)`: some split of `s` into
a run, `@`, a run, `.`, a run, the three runs matching `[^\s@]+`. -/
def emailRegexTest (s : String) : Bool :=
  (List.range (s.data.length + 1)).any fun i =>
    (List.range (s.data.length + 1)).any fun j =>
      blocoEmail (s.data.take i) &&
      ((s.data.drop i).take 1 == ['@']) &&
      blocoEmail ((s.data.drop (i + 1)).take j) &&
      ((s.data.drop (i + 1 + j)).take 1 == ['.']) &&
      blocoEmail (s.data.drop (i + 1 + j + 1))

/-- JavaScript `s || null` for a string `s`: the empty string is falsy. -/
def ouNull (s : String) : Option String :=
  if s = "" then none else some s

/-- JavaScript `Array.prototype.findIndex`; `none` stands for `-1`. -/
def findIndex {α : Type} (p : α → Bool) : List α → Option Nat
  | [] => none
  | a :: resto => if p a then some 0 else (findIndex p resto).map (· + 1)

/-- A client record of the JSON file. `data_atualizacao` and `data_desativacao`
are absent (`none`) until an update or a soft delete writes them. -/
structure Cliente where
  id : Nat
  nome : String
  cpf : String
  email : Option String
  telefone : Option String
  data_cadastro : String
  ativo : Bool
  data_atualizacao : Option String
  data_desativacao : Option String
deriving DecidableEq, Repr

/-- The object `novosDados` passed to `atualizarCliente`; `none` is `undefined`. -/
structure NovosDados where
  nome : Option String
  email : Option String
  telefone : Option String
  ativo : Option Bool
deriving DecidableEq, Repr

/-! ## `cliente.js`: validator, formatter and store operations -/

namespace ClienteJs

/-- The function `validarCPF` of `cliente.js`. -/
def validarCPF (cpf : String) : Bool :=
  let cpf := apenasDigitos cpf
  if cpf.length ≠ 11 then false
  else if todosIguais cpf then false
  else
    let soma := (List.range 9).foldl (fun soma i => soma + parseInt (charAt cpf i) * (10 - i)) 0
    let resto := 11 - soma % 11
    let resto := if resto = 10 ∨ resto = 11 then 0 else resto
    if resto ≠ parseInt (charAt cpf 9) then false
    else
      let soma := (List.range 10).foldl (fun soma i => soma + parseInt (charAt cpf i) * (11 - i)) 0
      let resto := 11 - soma % 11
      let resto := if resto = 10 ∨ resto = 11 then 0 else resto
      if resto ≠ parseInt (charAt cpf 10) then false
      else true

/-- The function `formatarCPF` of `cliente.js` (guarded by the length test). -/
def formatarCPF (cpf : String) : String :=
  let cpf := apenasDigitos cpf
  if cpf.length = 11 then ⟨substituirPadrao cpf.data⟩ else cpf

/-- The function `adicionarCliente` of `cliente.js`: the returned boolean and the
content of the JSON file after the call. -/
def adicionarCliente (agora : String) (clientes : List Cliente)
    (nome cpf email telefone : String) : Bool × List Cliente :=
  if nome = "" ∨ trim nome = "" then (false, clientes)
  else if cpf = "" ∨ trim cpf = "" then (false, clientes)
  else if validarCPF cpf = false then (false, clientes)
  else
    let cpfFormatado := formatarCPF cpf
    match clientes.find? (fun cliente => cliente.cpf == cpfFormatado) with
    | some _ => (false, clientes)
    | none =>
      if (email ≠ "" ∧ trim email ≠ "") ∧ emailRegexTest (trim email) = false then
        (false, clientes)
      else
        let novoCliente : Cliente :=
          { id := clientes.length + 1
            nome := trim nome
            cpf := cpfFormatado
            email := ouNull (trim email)
            telefone := ouNull (trim telefone)
            data_cadastro := agora
            ativo := true
            data_atualizacao := none
            data_desativacao := none }
        (true, clientes ++ [novoCliente])

/-- The function `buscarClientePorCpf` of `cliente.js`; `none` is `null` or
`undefined`. -/
def buscarClientePorCpf (clientes : List Cliente) (cpf : String) : Option Cliente :=
  if cpf = "" ∨ trim cpf = "" then none
  else clientes.find? (fun c => c.cpf == formatarCPF cpf)

/-- The function `atualizarCliente` of `cliente.js`. The record is changed in
memory field by field and the file is written only at the end, so the early
`return false` of the email test leaves the file as it was. -/
def atualizarCliente (agora : String) (clientes : List Cliente) (cpf : String)
    (novosDados : NovosDados) : Bool × List Cliente :=
  let cpfFormatado := formatarCPF cpf
  match findIndex (fun c => c.cpf == cpfFormatado) clientes with
  | none => (false, clientes)
  | some index =>
    match clientes.get? index with
    | none => (false, clientes)
    | some clienteAtual =>
      let c1 : Cliente :=
        match novosDados.nome with
        | some nome => if nome ≠ "" ∧ trim nome ≠ "" then { clienteAtual with nome := trim nome }
                       else clienteAtual
        | none => clienteAtual
      let c2 : Option Cliente :=
        match novosDados.email with
        | some email =>
          if trim email ≠ "" then
            if emailRegexTest (trim email) = false then none
            else some { c1 with email := some (trim email) }
          else some { c1 with email := none }
        | none => some c1
      match c2 with
      | none => (false, clientes)
      | some c2 =>
        let c3 : Cliente :=
          match novosDados.telefone with
          | some telefone => { c2 with telefone := ouNull (trim telefone) }
          | none => c2
        let c4 : Cliente :=
          match novosDados.ativo with
          | some ativo => { c3 with ativo := ativo }
          | none => c3
        (true, clientes.set index { c4 with data_atualizacao := some agora })

/-- The function `removerCliente` of `cliente.js`. -/
def removerCliente (agora : String) (clientes : List Cliente) (cpf : String)
    (removerCompletamente : Bool) : Bool × List Cliente :=
  let cpfFormatado := formatarCPF cpf
  match findIndex (fun c => c.cpf == cpfFormatado) clientes with
  | none => (false, clientes)
  | some index =>
    match clientes.get? index with
    | none => (false, clientes)
    | some cliente =>
      if removerCompletamente then (true, clientes.eraseIdx index)
      else
        (true, clientes.set index
          { cliente with ativo := false, data_desativacao := some agora })

/-- The stores reachable from the empty JSON file by calls of `adicionarCliente`,
`atualizarCliente` and `removerCliente` (soft or hard), with any arguments. -/
inductive Alcancavel : List Cliente → Prop
  | vazio : Alcancavel []
  | adicionar (agora nome cpf email telefone : String) {s : List Cliente} :
      Alcancavel s → Alcancavel (adicionarCliente agora s nome cpf email telefone).2
  | atualizar (agora cpf : String) (novosDados : NovosDados) {s : List Cliente} :
      Alcancavel s → Alcancavel (atualizarCliente agora s cpf novosDados).2
  | remover (agora cpf : String) (removerCompletamente : Bool) {s : List Cliente} :
      Alcancavel s → Alcancavel (removerCliente agora s cpf removerCompletamente).2

/-- The stores reachable from the empty JSON file by calls of `adicionarCliente`
and of the hard delete `removerCliente(cpf, true)`, with any arguments. -/
inductive AlcancavelExclusao : List Cliente → Prop
  | vazio : AlcancavelExclusao []
  | adicionar (agora nome cpf email telefone : String) {s : List Cliente} :
      AlcancavelExclusao s →
        AlcancavelExclusao (adicionarCliente agora s nome cpf email telefone).2
  | remover (agora cpf : String) {s : List Cliente} :
      AlcancavelExclusao s → AlcancavelExclusao (removerCliente agora s cpf true).2

/-- The stores reachable from the empty JSON file by calls of `adicionarCliente`,
`atualizarCliente` and of the soft delete `removerCliente(cpf, false)`: no record
is ever taken out of the file. -/
inductive AlcancavelSemExclusao : List Cliente → Prop
  | vazio : AlcancavelSemExclusao []
  | adicionar (agora nome cpf email telefone : String) {s : List Cliente} :
      AlcancavelSemExclusao s →
        AlcancavelSemExclusao (adicionarCliente agora s nome cpf email telefone).2
  | atualizar (agora cpf : String) (novosDados : NovosDados) {s : List Cliente} :
      AlcancavelSemExclusao s →
        AlcancavelSemExclusao (atualizarCliente agora s cpf novosDados).2
  | desativar (agora cpf : String) {s : List Cliente} :
      AlcancavelSemExclusao s → AlcancavelSemExclusao (removerCliente agora s cpf false).2

/-- An element of the list passed to `adicionarVariosClientes`; `none` is an absent
field. -/
structure DadosCliente where
  nome : String
  cpf : String
  email : Option String
  telefone : Option String
deriving DecidableEq, Repr

/-- JavaScript `v || ''` for a string field that may be absent. -/
def ouVazio (v : Option String) : String :=
  match v with
  | some x => x
  | none => ""

/-- The loop of `adicionarVariosClientes` from the element of index `k` on: the
counter `sucessos` and the content of the JSON file. `agora k` is the clock read
by the call for the element of index `k`. -/
def adicionarVariosDesde (agora : Nat → String) (k : Nat) :
    List DadosCliente → Nat × List Cliente → Nat × List Cliente
  | [], estado => estado
  | cliente :: resto, estado =>
    let r := adicionarCliente (agora k) estado.2 cliente.nome cliente.cpf
      (ouVazio cliente.email) (ouVazio cliente.telefone)
    adicionarVariosDesde agora (k + 1) resto
      (if r.1 then (estado.1 + 1, r.2) else (estado.1, r.2))

/-- The function `adicionarVariosClientes` of `cliente.js`: the number of clients
added (`sucessos`) and the content of the JSON file after the call. -/
def adicionarVariosClientes (agora : Nat → String) (clientes : List Cliente)
    (listaClientes : List DadosCliente) : Nat × List Cliente :=
  adicionarVariosDesde agora 0 listaClientes (0, clientes)

/-- The constant `clientesExemplo` of `cliente.js`. -/
def clientesExemplo : List DadosCliente :=
  [ { nome := "Jo?o Silva", cpf := "12345678901", email := some "joao.silva@email.com",
      telefone := some "(11) 99999-1111" },
    { nome := "Maria Santos", cpf := "98765432100", email := some "maria.santos@email.com",
      telefone := some "(11) 99999-2222" },
    { nome := "Pedro Oliveira", cpf := "11122233344",
      email := some "pedro.oliveira@email.com", telefone := some "(11) 99999-3333" },
    { nome := "Ana Costa", cpf := "55566677788", email := some "ana.costa@email.com",
      telefone := some "(11) 99999-4444" } ]

end ClienteJs

/-! ## `index.js`: the JSON create path -/

/-- The fields of a record of the JSON file that `index.js` reads or writes. -/
structure RegistroIndex where
  id : Nat
  nome : String
  cpf : String
  email : Option String
  telefone : Option String
  data_cadastro : String
deriving DecidableEq, Repr

namespace IndexJs

/-- The function `adicionarClienteJSON` of `index.js`, with `validarCPF` imported
from `cliente.js`: the returned boolean and the content of the JSON file. -/
def adicionarClienteJSON (agora : String) (clientes : List RegistroIndex)
    (nome cpf email telefone : String) : Bool × List RegistroIndex :=
  if ClienteJs.validarCPF cpf = false then (false, clientes)
  else
    match clientes.find? (fun cliente => cliente.cpf == cpf) with
    | some _ => (false, clientes)
    | none =>
      let novoCliente : RegistroIndex :=
        { id := clientes.length + 1
          nome := trim nome
          cpf := cpf
          email := some (trim email)
          telefone := some (trim telefone)
          data_cadastro := agora }
      (true, clientes ++ [novoCliente])

end IndexJs

/-! ## Helpers of `crudUpdate.js` -/

/-- The regex class `\w` without the unicode flag: `[A-Za-z0-9_]`. -/
def ehPalavra (c : Char) : Bool :=
  let n := c.toNat
  (decide (65 ≤ n) && decide (n ≤ 90)) || (decide (97 ≤ n) && decide (n ≤ 122)) ||
  (decide (48 ≤ n) && decide (n ≤ 57)) || n == 95

/-- The classes of characters that the email regex of `crudUpdate.js` tells apart. -/
inductive ClasseEmail where
  | palavra
  | ponto
  | hifen
  | arroba
  | outro
deriving DecidableEq, Repr

/-- The class of a character: `\w`, `.`, `-`, `@` or anything else. -/
def classificar (c : Char) : ClasseEmail :=
  if ehPalavra c then ClasseEmail.palavra
  else if c = '.' then ClasseEmail.ponto
  else if c = '-' then ClasseEmail.hifen
  else if c = '@' then ClasseEmail.arroba
  else ClasseEmail.outro

/-- The piece `\w+` of the email regex of `crudUpdate.js`. -/
def rxPalavras : RegularExpression ClasseEmail :=
  RegularExpression.char ClasseEmail.palavra *
    RegularExpression.star (RegularExpression.char ClasseEmail.palavra)

/-- The piece `\w+([.-]?\w+)*` of the email regex of `crudUpdate.js`. -/
def rxNome : RegularExpression ClasseEmail :=
  rxPalavras *
    RegularExpression.star
      ((RegularExpression.char ClasseEmail.ponto + RegularExpression.char ClasseEmail.hifen + 1) *
        rxPalavras)

/-- The piece `\.\w{2,3}` of the email regex of `crudUpdate.js`. -/
def rxSufixo : RegularExpression ClasseEmail :=
  RegularExpression.char ClasseEmail.ponto *
    (RegularExpression.char ClasseEmail.palavra *
      (RegularExpression.char ClasseEmail.palavra *
        (RegularExpression.char ClasseEmail.palavra + 1)))

/-- The email regex of `crudUpdate.js`,
`/^\w+([.-]?\w+)*@\w+([.-]?\w+)*(\.\w{2,3})+$/`, over the classes of characters. -/
def rxEmailCrud : RegularExpression ClasseEmail :=
  rxNome * (RegularExpression.char ClasseEmail.arroba *
    (rxNome * (rxSufixo * RegularExpression.star rxSufixo)))

/-- The test `/^\w+([.-]?\w+)*@\w+([.-]?\w+)*(\.\w{2,3})+$/.test(s)`, decided by
the derivative matcher of Mathlib on the classes of the characters of `s`. -/
def emailRegexCrudTest (s : String) : Bool :=
  rxEmailCrud.rmatch (s.data.map classificar)

/-- The value of a character as a digit in the given radix, if it is one. -/
def valorDigito (radix : Nat) (c : Char) : Option Nat :=
  let n := c.toNat
  let v : Option Nat :=
    if 48 ≤ n ∧ n ≤ 57 then some (n - 48)
    else if 97 ≤ n ∧ n ≤ 122 then some (n - 87)
    else if 65 ≤ n ∧ n ≤ 90 then some (n - 55)
    else none
  v.filter (fun d => decide (d < radix))

/-- JavaScript `parseInt(s)` with no radix argument; `none` is `NaN`. Leading
whitespace is skipped, a sign is read, a prefix `0x` or `0X` selects radix 16, and
the longest run of digits is converted. The value is exact below `2^53`. -/
def parseIntString (s : String) : Option Int :=
  let l := s.data.dropWhile ehEspaco
  let sinal : Bool × List Char :=
    match l with
    | '-' :: r => (true, r)
    | '+' :: r => (false, r)
    | _ => (false, l)
  let base : Nat × List Char :=
    match sinal.2 with
    | '0' :: 'x' :: r => (16, r)
    | '0' :: 'X' :: r => (16, r)
    | _ => (10, sinal.2)
  let digitos := ((base.2.map (valorDigito base.1)).takeWhile Option.isSome).filterMap id
  if digitos = [] then none
  else
    let valor : Nat := digitos.foldl (fun a d => a * base.1 + d) 0
    some (if sinal.1 then - (valor : Int) else (valor : Int))

/-- JavaScript truthiness of a string field that may be `undefined`: the field is
kept when it is present and not the empty string. -/
def presente (v : Option String) : Option String :=
  v.filter (fun x => x != "")

/-- The object `novosDados` passed to `atualizarClienteJSON`; `none` is `undefined`. -/
structure NovosDadosJSON where
  nome : Option String
  cpf : Option String
  email : Option String
  telefone : Option String
deriving DecidableEq, Repr

/-! ## Helpers of `crudRead.js` and `crudDelete.js` -/

/-- JavaScript `s.includes(t)`: `t` occurs in `s` as a contiguous run of characters. -/
def includes (s t : String) : Bool :=
  s.data.tails.any (fun u => t.data.isPrefixOf u)

/-- The sub-document `endereco` of the schema of `crudDelete.js`. -/
structure Endereco where
  logradouro : Option String
  numero : Option String
  bairro : Option String
  cidade : Option String
  uf : Option String
  cep : Option String
deriving DecidableEq, Repr

/-- A document of the collection `Cliente` of `crudDelete.js` (its schema); `id` is
the key `_id` given by the server. -/
structure Documento where
  id : String
  nome : String
  cpf : String
  email : Option String
  telefone : Option String
  endereco : Option Endereco
  ativo : Bool
  data_cadastro : String
  data_atualizacao : String
  data_exclusao : Option String
deriving DecidableEq, Repr

/-- Mongoose `Model.findOneAndUpdate(filter, update, { new: true })` on a collection
in its natural order: the first document that matches the filter is replaced by its
update and returned; without a match nothing changes and `null` is returned. -/
def findOneAndUpdate (filtro : Documento → Bool) (atualizacao : Documento → Documento)
    (colecao : List Documento) : Option Documento × List Documento :=
  match findIndex filtro colecao with
  | none => (none, colecao)
  | some i =>
    match colecao.get? i with
    | none => (none, colecao)
    | some d => (some (atualizacao d), colecao.set i (atualizacao d))

/-- Mongoose `Model.findOneAndDelete(filter)`: the first document that matches the
filter is removed and returned. -/
def findOneAndDelete (filtro : Documento → Bool) (colecao : List Documento) :
    Option Documento × List Documento :=
  match findIndex filtro colecao with
  | none => (none, colecao)
  | some i =>
    match colecao.get? i with
    | none => (none, colecao)
    | some d => (some d, colecao.eraseIdx i)

/-! ## `crudUpdate.js` / `crudRead.js` / `crudDelete.js`: validator and formatter -/

namespace CrudJs

/-- The function `validarCPF` of `crudUpdate.js`, `crudRead.js` and `crudDelete.js`
(the three copies are identical). The loops run `i = 1..9` and `i = 1..10`. -/
def validarCPF (cpf : String) : Bool :=
  let cpf := apenasDigitos cpf
  if cpf.length ≠ 11 then false
  else if todosIguais cpf then false
  else
    let soma := ((List.range 9).map (· + 1)).foldl
      (fun soma i => soma + parseInt (charAt cpf (i - 1)) * (11 - i)) 0
    let resto := (soma * 10) % 11
    let resto := if resto = 10 ∨ resto = 11 then 0 else resto
    if resto ≠ parseInt (charAt cpf 9) then false
    else
      let soma := ((List.range 10).map (· + 1)).foldl
        (fun soma i => soma + parseInt (charAt cpf (i - 1)) * (12 - i)) 0
      let resto := (soma * 10) % 11
      let resto := if resto = 10 ∨ resto = 11 then 0 else resto
      if resto ≠ parseInt (charAt cpf 10) then false
      else true

/-- The function `formatarCPF` of `crudUpdate.js`, `crudRead.js` and
`crudDelete.js` (no length test). -/
def formatarCPF (cpf : String) : String :=
  ⟨substituirPadrao (apenasDigitos cpf).data⟩

/-- The identifier resolution at the head of `atualizarClienteJSON`: an identifier
that contains a `.` is a CPF, any other is an id read by `parseInt`. -/
def localizarCliente (clientes : List Cliente) (identificador : String) : Option Nat :=
  if '.' ∈ identificador.data then
    findIndex (fun cliente => cliente.cpf == formatarCPF identificador) clientes
  else
    findIndex (fun cliente => some (cliente.id : Int) == parseIntString identificador) clientes

/-- The function `atualizarClienteJSON` of `crudUpdate.js`: the returned boolean and
the content of the JSON file after the call (`salvarClientesJSON` succeeding). -/
def atualizarClienteJSON (agora : String) (clientes : List Cliente) (identificador : String)
    (novosDados : NovosDadosJSON) : Bool × List Cliente :=
  match localizarCliente clientes identificador with
  | none => (false, clientes)
  | some clienteIndex =>
    match clientes.get? clienteIndex with
    | none => (false, clientes)
    | some alvo =>
      if (presente novosDados.cpf).any (fun cpf => !validarCPF cpf) then (false, clientes)
      else if (presente novosDados.email).any
          (fun email => trim email != "" && !emailRegexCrudTest email) then (false, clientes)
      else if (presente novosDados.cpf).any (fun cpf =>
          (clientes.enum.find? (fun par =>
            par.2.cpf == formatarCPF cpf && par.1 != clienteIndex)).isSome) then
        (false, clientes)
      else
        let c1 : Cliente :=
          match presente novosDados.nome with
          | some nome => if trim nome ≠ "" then { alvo with nome := trim nome } else alvo
          | none => alvo
        let c2 : Cliente :=
          match presente novosDados.cpf with
          | some cpf => { c1 with cpf := formatarCPF cpf }
          | none => c1
        let c3 : Cliente :=
          match novosDados.email with
          | some email => { c2 with email := some (trim email) }
          | none => c2
        let c4 : Cliente :=
          match novosDados.telefone with
          | some telefone => { c3 with telefone := some (trim telefone) }
          | none => c3
        (true, clientes.set clienteIndex { c4 with data_atualizacao := some agora })

/-- The function `buscarClientesJSONPorNome` of `crudRead.js`. The built-in
`String.prototype.toLowerCase` is a parameter. -/
def buscarClientesJSONPorNome (toLowerCase : String → String) (clientes : List Cliente)
    (nome : String) : List Cliente :=
  let nomeSearch := toLowerCase nome
  clientes.filter (fun c => includes (toLowerCase c.nome) nomeSearch)

/-- The function `removerClienteMongoDBPorCPF` of `crudDelete.js`: the returned
boolean and the collection after the call. The two `new Date()` of the update
object are the parameters `dataExclusao` and `dataAtualizacao`. -/
def removerClienteMongoDBPorCPF (dataExclusao dataAtualizacao : String)
    (colecao : List Documento) (cpf : String) (exclusaoLogica : Bool) :
    Bool × List Documento :=
  let cpfFormatado := formatarCPF cpf
  if exclusaoLogica then
    let resultado := findOneAndUpdate
      (fun d => d.cpf == cpfFormatado && d.ativo == true)
      (fun d => { d with ativo := false, data_exclusao := some dataExclusao,
                         data_atualizacao := dataAtualizacao })
      colecao
    match resultado.1 with
    | some _ => (true, resultado.2)
    | none => (false, resultado.2)
  else
    let resultado := findOneAndDelete (fun d => d.cpf == cpfFormatado) colecao
    match resultado.1 with
    | some _ => (true, resultado.2)
    | none => (false, resultado.2)

/-- The function `reativarClienteMongoDB` of `crudDelete.js`. -/
def reativarClienteMongoDB (agora : String) (colecao : List Documento) (cpf : String) :
    Bool × List Documento :=
  let cpfFormatado := formatarCPF cpf
  let resultado := findOneAndUpdate
    (fun d => d.cpf == cpfFormatado && d.ativo == false)
    (fun d => { d with ativo := true, data_exclusao := none, data_atualizacao := agora })
    colecao
  match resultado.1 with
  | some _ => (true, resultado.2)
  | none => (false, resultado.2)

end CrudJs

/-! ## Reference notions used to state the properties -/

/-- The ASCII digits of a string, in order, as characters. -/
def asciiDigitChars (s : String) : List Char :=
  s.data.filter (fun c => decide ('0' ≤ c ∧ c ≤ '9'))

/-- The ASCII digits of a string, in order, as numbers. -/
def asciiDigits (s : String) : List Nat :=
  (asciiDigitChars s).map (fun c => c.toNat - '0'.toNat)

/-- The character of the digit `d`. -/
def digitoChar (d : Fin 10) : Char :=
  Char.ofNat ('0'.toNat + d.val)

/-- The digit `d` repeated 11 times, without punctuation. -/
def repetido (d : Fin 10) : String :=
  ⟨List.replicate 11 (digitoChar d)⟩

/-- The digit `d` repeated 11 times, with the punctuation `XXX.XXX.XXX-XX`. -/
def repetidoPontuado (d : Fin 10) : String :=
  let c := digitoChar d
  ⟨[c, c, c, '.', c, c, c, '.', c, c, c, '-', c, c]⟩

/-- The check digit of a weighted sum `t`: `0` when `11 - (t mod 11)` is 10 or 11,
and `11 - (t mod 11)` otherwise. -/
def chk (t : Nat) : Nat :=
  if 11 - t % 11 = 10 ∨ 11 - t % 11 = 11 then 0 else 11 - t % 11

/-- The shape `local@domain.tld`: a non-empty local part, one `@`, a domain with a
`.` that has non-empty text on both sides, no whitespace and no further `@`. -/
def FormaEmail (s : String) : Prop :=
  ∃ loc a b : List Char, s.data = loc ++ '@' :: (a ++ '.' :: b) ∧
    loc ≠ [] ∧ a ≠ [] ∧ b ≠ [] ∧
    ∀ c ∈ loc ++ a ++ b, ehEspaco c = false ∧ c ≠ '@'

/-- The pattern `ddd.ddd.ddd-dd` (the schema regex `/^\d{3}\.\d{3}\.\d{3}-\d{2}$/`). -/
def ehCanonico (s : String) : Bool :=
  match s.data with
  | [a, b, c, '.', d, e, f, '.', g, h, i, '-', j, k] =>
    [a, b, c, d, e, f, g, h, i, j, k].all ehDigito
  | _ => false

/-- An example store: two clients added to the empty JSON file. -/
def lojaExemplo : List Cliente :=
  [Cliente.mk 1 "Ana" "123.456.789-09" none none "2024-01-01" true none none,
   Cliente.mk 2 "Bia" "987.654.321-00" (some "bia@mail.com") none "2024-01-02" true none none]

/-- An example store reached with a hard delete: Ana, Bia and then Caio are added,
and Ana is removed completely before Caio is added. -/
def lojaIdRepetido : List Cliente :=
  [Cliente.mk 2 "Bia" "987.654.321-00" none none "2024-01-02" true none none,
   Cliente.mk 2 "Caio" "887.654.321-00" none none "2024-01-04" true none none]

/-- The record that a successful `atualizarCliente` of `cliente.js` writes in place
of `alvo`. -/
def registroAtualizado (agora : String) (alvo : Cliente) (novosDados : NovosDados) : Cliente :=
  { alvo with
    nome := match novosDados.nome with
      | some nome => if nome ≠ "" ∧ trim nome ≠ "" then trim nome else alvo.nome
      | none => alvo.nome
    email := match novosDados.email with
      | some email => if trim email ≠ "" then some (trim email) else none
      | none => alvo.email
    telefone := match novosDados.telefone with
      | some telefone => ouNull (trim telefone)
      | none => alvo.telefone
    ativo := match novosDados.ativo with
      | some ativo => ativo
      | none => alvo.ativo
    data_atualizacao := some agora }

/-- The patch carries an email that is non-empty after trim and fails the email
test of `cliente.js`. -/
def emailRecusado (novosDados : NovosDados) : Prop :=
  ∃ email, novosDados.email = some email ∧ trim email ≠ "" ∧
    emailRegexTest (trim email) = false

/-- An example store with one client that has a telephone. -/
def lojaTelefone : List Cliente :=
  [Cliente.mk 1 "Ana" "123.456.789-09" (some "ana@mail.com") (some "99") "2024-01-01" true
    none none]

/-- A run of classes without `@` and without a character outside `\w`, `.`, `-`. -/
def SemArroba (x : List ClasseEmail) : Prop :=
  ∀ c ∈ x, c = ClasseEmail.palavra ∨ c = ClasseEmail.ponto ∨ c = ClasseEmail.hifen

/-- The record that a successful `atualizarClienteJSON` of `crudUpdate.js` writes in
place of `alvo`. -/
def registroAtualizadoJSON (agora : String) (alvo : Cliente) (novosDados : NovosDadosJSON) :
    Cliente :=
  { alvo with
    nome := match presente novosDados.nome with
      | some nome => if trim nome ≠ "" then trim nome else alvo.nome
      | none => alvo.nome
    cpf := match presente novosDados.cpf with
      | some cpf => CrudJs.formatarCPF cpf
      | none => alvo.cpf
    email := match novosDados.email with
      | some email => some (trim email)
      | none => alvo.email
    telefone := match novosDados.telefone with
      | some telefone => some (trim telefone)
      | none => alvo.telefone
    data_atualizacao := some agora }

/-- The three refusals of `atualizarClienteJSON`, in the order of the source: a cpf
that `validarCPF` rejects, an email that the regex rejects, a cpf held by another
record. -/
def recusaJSON (clientes : List Cliente) (clienteIndex : Nat) (novosDados : NovosDadosJSON) :
    Bool :=
  (presente novosDados.cpf).any (fun cpf => !CrudJs.validarCPF cpf) ||
  (presente novosDados.email).any
    (fun email => trim email != "" && !emailRegexCrudTest email) ||
  (presente novosDados.cpf).any (fun cpf =>
    (clientes.enum.find? (fun par =>
      par.2.cpf == CrudJs.formatarCPF cpf && par.1 != clienteIndex)).isSome)

/-- An example of a file edited by hand: two records with the same cpf. -/
def lojaDuplicada : List Cliente :=
  [Cliente.mk 1 "Ana" "123.456.789-09" none none "2024-01-01" true none none,
   Cliente.mk 2 "Eva" "123.456.789-09" none none "2024-01-02" true none none]

/-- A lower-casing of the ASCII letters, used as an example of `toLowerCase`. -/
def minusculasAscii (s : String) : String :=
  ⟨s.data.map Char.toLower⟩

/-- The number of positions at which two strings of the same length differ. -/
def posicoesDiferentes (a b : String) : Nat :=
  ((a.data.zip b.data).filter (fun par => par.1 != par.2)).length

/-- An example store: Bia of `lojaExemplo` was deactivated on 2024-02-01 and set
active again by `atualizarCliente` on 2024-03-01. -/
def lojaReativada : List Cliente :=
  [Cliente.mk 1 "Ana" "123.456.789-09" none none "2024-01-01" true none none,
   Cliente.mk 2 "Bia" "987.654.321-00" (some "bia@mail.com") none "2024-01-02" true
     (some "2024-03-01") (some "2024-02-01")]

/-- An example collection of the document store: two active documents. -/
def colecaoExemplo : List Documento :=
  [Documento.mk "a1" "Ana" "123.456.789-09" none none none true "2024-01-01" "2024-01-01" none,
   Documento.mk "b2" "Bia" "987.654.321-00" (some "bia@mail.com") none none true "2024-01-02"
     "2024-01-02" none]

/-! ## Lemmas on characters and digit strings -/

theorem exists_of_length_eleven {α : Type} (l : List α) (h : l.length = 11) :
    ∃ c0 c1 c2 c3 c4 c5 c6 c7 c8 c9 c10, l = [c0, c1, c2, c3, c4, c5, c6, c7, c8, c9, c10] := by
  rcases l with _ | ⟨c0, l⟩; · simp at h
  rcases l with _ | ⟨c1, l⟩; · simp at h
  rcases l with _ | ⟨c2, l⟩; · simp at h
  rcases l with _ | ⟨c3, l⟩; · simp at h
  rcases l with _ | ⟨c4, l⟩; · simp at h
  rcases l with _ | ⟨c5, l⟩; · simp at h
  rcases l with _ | ⟨c6, l⟩; · simp at h
  rcases l with _ | ⟨c7, l⟩; · simp at h
  rcases l with _ | ⟨c8, l⟩; · simp at h
  rcases l with _ | ⟨c9, l⟩; · simp at h
  rcases l with _ | ⟨c10, l⟩; · simp at h
  rcases l with _ | ⟨c11, l⟩
  · exact ⟨c0, c1, c2, c3, c4, c5, c6, c7, c8, c9, c10, rfl⟩
  · simp at h

theorem ehDigito_iff (c : Char) : ehDigito c = true ↔ 48 ≤ c.toNat ∧ c.toNat ≤ 57 := by
  simp [ehDigito]

theorem ehDigito_eq_decide (c : Char) : decide ('0' ≤ c ∧ c ≤ '9') = ehDigito c := by
  have h1 : ('0' ≤ c) ↔ 48 ≤ c.toNat := Iff.rfl
  have h2 : (c ≤ '9') ↔ c.toNat ≤ 57 := Iff.rfl
  simp [ehDigito, h1, h2]

theorem parseInt_inj {a b : Char} (ha : ehDigito a = true) (hb : ehDigito b = true) :
    parseInt a = parseInt b ↔ a = b := by
  rw [ehDigito_iff] at ha hb
  constructor
  · intro h
    apply Char.ext
    apply UInt32.ext
    have h3 : a.toNat - 48 = b.toNat - 48 := h
    have h4 : a.toNat = b.toNat := by omega
    exact h4
  · intro h; rw [h]

theorem apenasDigitos_all (s : String) : ∀ c ∈ (apenasDigitos s).data, ehDigito c = true := by
  intro c hc
  simp only [apenasDigitos, List.mem_filter] at hc
  exact hc.2

theorem asciiDigits_eq (s : String) :
    asciiDigits s = (apenasDigitos s).data.map parseInt := by
  simp only [asciiDigits, asciiDigitChars, apenasDigitos, ehDigito_eq_decide]
  rfl

theorem asciiDigitChars_eq (s : String) : asciiDigitChars s = (apenasDigitos s).data := by
  simp only [asciiDigitChars, apenasDigitos, ehDigito_eq_decide]

/-! ## The two validators in closed form -/

theorem range_nine : List.range 9 = [0, 1, 2, 3, 4, 5, 6, 7, 8] := by decide

theorem range_ten : List.range 10 = [0, 1, 2, 3, 4, 5, 6, 7, 8, 9] := by decide

theorem string_length_eq (t : String) : t.length = t.data.length := rfl

theorem clienteJs_validarCPF_short (s : String) (h : (apenasDigitos s).data.length ≠ 11) :
    ClienteJs.validarCPF s = false := by
  unfold ClienteJs.validarCPF
  exact if_pos h

theorem crudJs_validarCPF_short (s : String) (h : (apenasDigitos s).data.length ≠ 11) :
    CrudJs.validarCPF s = false := by
  unfold CrudJs.validarCPF
  exact if_pos h

theorem clienteJs_validarCPF_data (s : String) (c0 c1 c2 c3 c4 c5 c6 c7 c8 c9 c10 : Char)
    (h : (apenasDigitos s).data = [c0, c1, c2, c3, c4, c5, c6, c7, c8, c9, c10]) :
    ClienteJs.validarCPF s =
      (!todosIguais (apenasDigitos s) &&
        decide (chk (parseInt c0 * 10 + parseInt c1 * 9 + parseInt c2 * 8 + parseInt c3 * 7 +
          parseInt c4 * 6 + parseInt c5 * 5 + parseInt c6 * 4 + parseInt c7 * 3 +
          parseInt c8 * 2) = parseInt c9) &&
        decide (chk (parseInt c0 * 11 + parseInt c1 * 10 + parseInt c2 * 9 + parseInt c3 * 8 +
          parseInt c4 * 7 + parseInt c5 * 6 + parseInt c6 * 5 + parseInt c7 * 4 +
          parseInt c8 * 3 + parseInt c9 * 2) = parseInt c10)) := by
  unfold ClienteJs.validarCPF
  simp only [string_length_eq, charAt, h, range_nine, range_ten, List.foldl, List.getD_cons_zero,
    List.getD_cons_succ, List.length_cons, List.length_nil, chk]
  cases todosIguais (apenasDigitos s) <;> simp

theorem resto_vezes_dez (t : Nat) :
    (if (t * 10) % 11 = 10 ∨ (t * 10) % 11 = 11 then 0 else (t * 10) % 11) = chk t := by
  unfold chk
  split_ifs <;> omega

theorem crudJs_validarCPF_data (s : String) (c0 c1 c2 c3 c4 c5 c6 c7 c8 c9 c10 : Char)
    (h : (apenasDigitos s).data = [c0, c1, c2, c3, c4, c5, c6, c7, c8, c9, c10]) :
    CrudJs.validarCPF s =
      (!todosIguais (apenasDigitos s) &&
        decide (chk (parseInt c0 * 10 + parseInt c1 * 9 + parseInt c2 * 8 + parseInt c3 * 7 +
          parseInt c4 * 6 + parseInt c5 * 5 + parseInt c6 * 4 + parseInt c7 * 3 +
          parseInt c8 * 2) = parseInt c9) &&
        decide (chk (parseInt c0 * 11 + parseInt c1 * 10 + parseInt c2 * 9 + parseInt c3 * 8 +
          parseInt c4 * 7 + parseInt c5 * 6 + parseInt c6 * 5 + parseInt c7 * 4 +
          parseInt c8 * 3 + parseInt c9 * 2) = parseInt c10)) := by
  unfold CrudJs.validarCPF
  simp only [string_length_eq, charAt, h, range_nine, range_ten, List.map, List.foldl,
    List.getD_cons_zero, List.getD_cons_succ, List.length_cons, List.length_nil,
    resto_vezes_dez]
  cases todosIguais (apenasDigitos s) <;> simp

/-! ## Claims on the validator -/

/-- C3: the validator of `cliente.js` (remainder `11 - (sum mod 11)`) and the
validator of `crudUpdate.js` / `crudRead.js` / `crudDelete.js` (remainder
`(sum * 10) mod 11`) return the same boolean on every string. -/
theorem validarCPF_clienteJs_eq_crudJs (s : String) :
    ClienteJs.validarCPF s = CrudJs.validarCPF s := by
  by_cases h : (apenasDigitos s).data.length = 11
  · obtain ⟨c0, c1, c2, c3, c4, c5, c6, c7, c8, c9, c10, hd⟩ := exists_of_length_eleven _ h
    rw [clienteJs_validarCPF_data s _ _ _ _ _ _ _ _ _ _ _ hd,
      crudJs_validarCPF_data s _ _ _ _ _ _ _ _ _ _ _ hd]
  · rw [clienteJs_validarCPF_short s h, crudJs_validarCPF_short s h]

theorem todosIguais_iff (t : String) (c0 c1 c2 c3 c4 c5 c6 c7 c8 c9 c10 : Char)
    (h : t.data = [c0, c1, c2, c3, c4, c5, c6, c7, c8, c9, c10])
    (hdig : ∀ c ∈ t.data, ehDigito c = true) :
    todosIguais t = true ↔ ∃ d, t.data.map parseInt = List.replicate 11 d := by
  have e : ∀ c ∈ t.data, (parseInt c = parseInt c0 ↔ c = c0) := fun c hc =>
    parseInt_inj (hdig c hc) (hdig c0 (by simp [h]))
  have h0 := hdig c0 (by simp [h])
  rw [h] at e
  simp only [List.mem_cons, List.mem_singleton, forall_eq_or_imp, forall_eq, List.not_mem_nil,
    false_implies, implies_true, and_true] at e
  obtain ⟨-, e1, e2, e3, e4, e5, e6, e7, e8, e9, e10⟩ := e
  unfold todosIguais
  rw [h]
  simp only [List.map, List.replicate, List.cons.injEq, and_true, List.all_cons, List.all_nil,
    Bool.and_true, Bool.and_eq_true, beq_iff_eq, decide_eq_true_eq, List.length_cons,
    List.length_nil, h0, true_and]
  constructor
  · rintro ⟨a1, a2, a3, a4, a5, a6, a7, a8, a9, a10⟩
    exact ⟨parseInt c0, rfl, e1.2 a1, e2.2 a2, e3.2 a3, e4.2 a4, e5.2 a5, e6.2 a6, e7.2 a7,
      e8.2 a8, e9.2 a9, e10.2 a10⟩
  · rintro ⟨d, a0, a1, a2, a3, a4, a5, a6, a7, a8, a9, a10⟩
    subst a0
    exact ⟨e1.1 a1, e2.1 a2, e3.1 a3, e4.1 a4, e5.1 a5, e6.1 a6, e7.1 a7, e8.1 a8,
      e9.1 a9, e10.1 a10⟩

/-- C1: `validarCPF` of `cliente.js` accepts a string exactly when its ASCII digits,
in order, are 11 digits `d0..d10` that are not all identical, with
`d9 = chk (Σ i=0..8, d_i * (10 - i))` and `d10 = chk (Σ i=0..9, d_i * (11 - i))`. -/
theorem validarCPF_iff_mod11 (s : String) :
    ClienteJs.validarCPF s = true ↔
      (asciiDigits s).length = 11 ∧
      (¬ ∃ d, asciiDigits s = List.replicate 11 d) ∧
      (asciiDigits s).getD 9 0 =
        chk (∑ i in Finset.range 9, (asciiDigits s).getD i 0 * (10 - i)) ∧
      (asciiDigits s).getD 10 0 =
        chk (∑ i in Finset.range 10, (asciiDigits s).getD i 0 * (11 - i)) := by
  rw [asciiDigits_eq]
  by_cases h : (apenasDigitos s).data.length = 11
  · obtain ⟨c0, c1, c2, c3, c4, c5, c6, c7, c8, c9, c10, hd⟩ := exists_of_length_eleven _ h
    rw [clienteJs_validarCPF_data s _ _ _ _ _ _ _ _ _ _ _ hd,
      ← todosIguais_iff _ _ _ _ _ _ _ _ _ _ _ _ hd (apenasDigitos_all s)]
    simp only [hd, List.map, List.length_cons, List.length_nil, List.getD_cons_zero,
      List.getD_cons_succ, Finset.sum_range_succ, Finset.sum_range_zero, true_and,
      Bool.and_eq_true, Bool.not_eq_true', decide_eq_true_eq, Bool.not_eq_true]
    simp only [Nat.reduceSub, Nat.zero_add, Nat.reduceAdd, and_assoc]
    constructor
    · rintro ⟨a, b, c⟩
      exact ⟨a, b.symm, c.symm⟩
    · rintro ⟨a, b, c⟩
      exact ⟨a, b.symm, c.symm⟩
  · rw [clienteJs_validarCPF_short s h]
    simp only [List.length_map, h, false_and, Bool.false_eq_true]

/-- C2: for every digit `d`, the validator of `cliente.js` rejects `d` repeated 11
times, without and with the punctuation `XXX.XXX.XXX-XX`; in particular it rejects
`"11111111111"` and `"00000000000"`. -/
theorem validarCPF_repetido_false :
    (∀ d : Fin 10, ClienteJs.validarCPF (repetido d) = false ∧
      ClienteJs.validarCPF (repetidoPontuado d) = false) ∧
    ClienteJs.validarCPF "11111111111" = false ∧
    ClienteJs.validarCPF "00000000000" = false := by
  refine ⟨?_, by decide, by decide⟩
  intro d
  fin_cases d <;> exact ⟨by decide, by decide⟩

/-! ## Claims on the formatter -/

theorem exists_of_eleven_le {α : Type} (l : List α) (h : 11 ≤ l.length) :
    ∃ c0 c1 c2 c3 c4 c5 c6 c7 c8 c9 c10 r,
      l = c0 :: c1 :: c2 :: c3 :: c4 :: c5 :: c6 :: c7 :: c8 :: c9 :: c10 :: r := by
  have h1 : (l.take 11).length = 11 := by simp [h]
  obtain ⟨c0, c1, c2, c3, c4, c5, c6, c7, c8, c9, c10, hd⟩ := exists_of_length_eleven _ h1
  refine ⟨c0, c1, c2, c3, c4, c5, c6, c7, c8, c9, c10, l.drop 11, ?_⟩
  have h2 := List.take_append_drop 11 l
  rw [hd] at h2
  exact h2.symm

theorem substituirPadrao_short (l : List Char) (h : l.length < 11) :
    substituirPadrao l = l := by
  induction l with
  | nil => rfl
  | cons c r ih =>
    have h1 : ¬ (11 ≤ (c :: r).length ∧ ((c :: r).take 11).all ehDigito = true) := by
      intro hc; omega
    have h2 : r.length < 11 := by simp at h; omega
    rw [substituirPadrao, if_neg h1, ih h2]

theorem substituirPadrao_digitos (c0 c1 c2 c3 c4 c5 c6 c7 c8 c9 c10 : Char) (r : List Char)
    (h : ∀ c ∈ [c0, c1, c2, c3, c4, c5, c6, c7, c8, c9, c10], ehDigito c = true) :
    substituirPadrao (c0 :: c1 :: c2 :: c3 :: c4 :: c5 :: c6 :: c7 :: c8 :: c9 :: c10 :: r) =
      c0 :: c1 :: c2 :: '.' :: c3 :: c4 :: c5 :: '.' :: c6 :: c7 :: c8 :: '-' :: c9 :: c10 :: r := by
  have h1 : 11 ≤ (c0 :: c1 :: c2 :: c3 :: c4 :: c5 :: c6 :: c7 :: c8 :: c9 :: c10 :: r).length ∧
      ((c0 :: c1 :: c2 :: c3 :: c4 :: c5 :: c6 :: c7 :: c8 :: c9 :: c10 :: r).take 11).all
        ehDigito = true := by
    refine ⟨by simp, ?_⟩
    rw [List.all_eq_true]
    intro c hc
    exact h c (by simpa using hc)
  rw [substituirPadrao, if_pos h1]
  rfl

theorem ehDigito_ponto : ehDigito '.' = false := by decide

theorem ehDigito_hifen : ehDigito '-' = false := by decide

theorem filter_substituirPadrao (l : List Char) (h : ∀ c ∈ l, ehDigito c = true) :
    (substituirPadrao l).filter ehDigito = l := by
  by_cases hl : 11 ≤ l.length
  · obtain ⟨c0, c1, c2, c3, c4, c5, c6, c7, c8, c9, c10, r, rfl⟩ := exists_of_eleven_le l hl
    have hr : r.filter ehDigito = r := List.filter_eq_self.2 (fun c hc => h c (by simp [hc]))
    rw [substituirPadrao_digitos _ _ _ _ _ _ _ _ _ _ _ r (fun c hc => h c (by
      simp only [List.mem_cons, List.mem_singleton, List.not_mem_nil, or_false] at hc ⊢
      tauto))]
    simp only [List.filter_cons, ehDigito_ponto, ehDigito_hifen, hr, h c0 (by simp),
      h c1 (by simp), h c2 (by simp), h c3 (by simp), h c4 (by simp), h c5 (by simp),
      h c6 (by simp), h c7 (by simp), h c8 (by simp), h c9 (by simp), h c10 (by simp),
      if_true, Bool.false_eq_true, if_false]
  · rw [substituirPadrao_short l (by omega)]
    exact List.filter_eq_self.2 h

theorem apenasDigitos_data (s : String) : (apenasDigitos s).data = s.data.filter ehDigito := rfl

theorem apenasDigitos_idem (s : String) : apenasDigitos (apenasDigitos s) = apenasDigitos s := by
  simp [apenasDigitos]

/-- The digits of the canonical form of `crudUpdate.js` are the digits of the input. -/
theorem apenasDigitos_crudJs_formatarCPF (s : String) :
    apenasDigitos (CrudJs.formatarCPF s) = apenasDigitos s := by
  unfold CrudJs.formatarCPF
  show (⟨(substituirPadrao (apenasDigitos s).data).filter ehDigito⟩ : String) = apenasDigitos s
  rw [filter_substituirPadrao _ (apenasDigitos_all s)]

/-- The digits of the canonical form of `cliente.js` are the digits of the input. -/
theorem apenasDigitos_clienteJs_formatarCPF (s : String) :
    apenasDigitos (ClienteJs.formatarCPF s) = apenasDigitos s := by
  unfold ClienteJs.formatarCPF
  by_cases h : (apenasDigitos s).length = 11
  · simp only [h, if_true]
    show (⟨(substituirPadrao (apenasDigitos s).data).filter ehDigito⟩ : String) = apenasDigitos s
    rw [filter_substituirPadrao _ (apenasDigitos_all s)]
  · simp only [h, if_false, apenasDigitos_idem]

/-- C4: when the ASCII digits of `s`, in order, are exactly the 11 digits
`d0..d10`, `formatarCPF s` of `cliente.js` is the 14-character string
`d0d1d2.d3d4d5.d6d7d8-d9d10`. -/
theorem formatarCPF_onze_digitos (s : String) (d0 d1 d2 d3 d4 d5 d6 d7 d8 d9 d10 : Char)
    (h : asciiDigitChars s = [d0, d1, d2, d3, d4, d5, d6, d7, d8, d9, d10]) :
    ClienteJs.formatarCPF s =
        ⟨[d0, d1, d2, '.', d3, d4, d5, '.', d6, d7, d8, '-', d9, d10]⟩ ∧
      (ClienteJs.formatarCPF s).length = 14 := by
  rw [asciiDigitChars_eq] at h
  have hall := apenasDigitos_all s
  rw [h] at hall
  have hlen : (apenasDigitos s).length = 11 := by rw [string_length_eq, h]; rfl
  have e : ClienteJs.formatarCPF s =
      ⟨[d0, d1, d2, '.', d3, d4, d5, '.', d6, d7, d8, '-', d9, d10]⟩ := by
    unfold ClienteJs.formatarCPF
    simp only [hlen, if_true, h]
    rw [substituirPadrao_digitos _ _ _ _ _ _ _ _ _ _ _ [] hall]
  exact ⟨e, by rw [e]; rfl⟩

/-- Witness of C4: `formatarCPF "123.456.789-09" = "123.456.789-09"`. -/
theorem formatarCPF_onze_digitos_witness :
    asciiDigitChars "123.456.789-09" = ['1', '2', '3', '4', '5', '6', '7', '8', '9', '0', '9'] ∧
    ClienteJs.formatarCPF "123.456.789-09" = "123.456.789-09" ∧
    (ClienteJs.formatarCPF "123.456.789-09").length = 14 :=
  ⟨by decide, formatarCPF_onze_digitos "123.456.789-09" '1' '2' '3' '4' '5' '6' '7' '8' '9' '0' '9'
    (by decide)⟩

theorem clienteJs_formatarCPF_def (t : String) :
    ClienteJs.formatarCPF t =
      if (apenasDigitos t).length = 11 then ⟨substituirPadrao (apenasDigitos t).data⟩
      else apenasDigitos t := rfl

theorem crudJs_formatarCPF_def (t : String) :
    CrudJs.formatarCPF t = ⟨substituirPadrao (apenasDigitos t).data⟩ := rfl

/-- C5: `formatarCPF` is idempotent on every string, in the length-guarded version of
`cliente.js` and in the unguarded version of `crudUpdate.js` / `crudRead.js` /
`crudDelete.js`. -/
theorem formatarCPF_idempotente (s : String) :
    ClienteJs.formatarCPF (ClienteJs.formatarCPF s) = ClienteJs.formatarCPF s ∧
    CrudJs.formatarCPF (CrudJs.formatarCPF s) = CrudJs.formatarCPF s := by
  constructor
  · rw [clienteJs_formatarCPF_def (ClienteJs.formatarCPF s),
      apenasDigitos_clienteJs_formatarCPF s]
    exact (clienteJs_formatarCPF_def s).symm
  · rw [crudJs_formatarCPF_def (CrudJs.formatarCPF s), apenasDigitos_crudJs_formatarCPF s]
    exact (crudJs_formatarCPF_def s).symm

/-! ## `adicionarCliente` in closed form -/

theorem trim_empty : trim "" = "" := by decide

/-- The record that `adicionarCliente` builds. -/
theorem adicionarCliente_cases (agora : String) (clientes : List Cliente)
    (nome cpf email telefone : String) :
    (ClienteJs.adicionarCliente agora clientes nome cpf email telefone = (false, clientes) ∧
      (trim nome = "" ∨ trim cpf = "" ∨ ClienteJs.validarCPF cpf = false ∨
        (∃ r ∈ clientes, r.cpf = ClienteJs.formatarCPF cpf) ∨
        (trim email ≠ "" ∧ emailRegexTest (trim email) = false))) ∨
    (ClienteJs.adicionarCliente agora clientes nome cpf email telefone =
        (true, clientes ++ [Cliente.mk (clientes.length + 1) (trim nome)
          (ClienteJs.formatarCPF cpf) (ouNull (trim email)) (ouNull (trim telefone)) agora true
          none none]) ∧
      trim nome ≠ "" ∧ trim cpf ≠ "" ∧ ClienteJs.validarCPF cpf = true ∧
      (∀ r ∈ clientes, r.cpf ≠ ClienteJs.formatarCPF cpf) ∧
      (trim email = "" ∨ emailRegexTest (trim email) = true)) := by
  unfold ClienteJs.adicionarCliente
  by_cases h1 : nome = "" ∨ trim nome = ""
  · left
    refine ⟨if_pos h1, Or.inl ?_⟩
    rcases h1 with h | h
    · rw [h]; exact trim_empty
    · exact h
  rw [if_neg h1]
  by_cases h2 : cpf = "" ∨ trim cpf = ""
  · left
    refine ⟨if_pos h2, Or.inr (Or.inl ?_)⟩
    rcases h2 with h | h
    · rw [h]; exact trim_empty
    · exact h
  rw [if_neg h2]
  by_cases h3 : ClienteJs.validarCPF cpf = false
  · left
    exact ⟨if_pos h3, Or.inr (Or.inr (Or.inl h3))⟩
  rw [if_neg h3]
  simp only []
  cases h4 : clientes.find? (fun cliente => cliente.cpf == ClienteJs.formatarCPF cpf) with
  | some r =>
    left
    refine ⟨rfl, Or.inr (Or.inr (Or.inr (Or.inl ⟨r, List.mem_of_find?_eq_some h4, ?_⟩)))⟩
    have := List.find?_some h4
    simpa using this
  | none =>
    simp only []
    have h4b : ∀ r ∈ clientes, r.cpf ≠ ClienteJs.formatarCPF cpf := by
      intro r hr
      have := List.find?_eq_none.1 h4 r hr
      simpa using this
    by_cases h5 : (email ≠ "" ∧ trim email ≠ "") ∧ emailRegexTest (trim email) = false
    · left
      exact ⟨if_pos h5, Or.inr (Or.inr (Or.inr (Or.inr ⟨h5.1.2, h5.2⟩)))⟩
    · right
      rw [if_neg h5]
      refine ⟨rfl, fun h => h1 (Or.inr h), fun h => h2 (Or.inr h), by simpa using h3, h4b, ?_⟩
      by_cases h6 : trim email = ""
      · exact Or.inl h6
      · right
        by_contra h7
        apply h5
        refine ⟨⟨?_, h6⟩, by simpa using h7⟩
        intro h8
        apply h6
        rw [h8]
        exact trim_empty

/-! ## The email test -/

theorem blocoEmail_iff (l : List Char) :
    blocoEmail l = true ↔ l ≠ [] ∧ ∀ c ∈ l, ehEspaco c = false ∧ c ≠ '@' := by
  cases l with
  | nil => simp [blocoEmail]
  | cons a r => simp [blocoEmail]

theorem take_one_eq_singleton {α : Type} (m : List α) (x : α) (h : m.take 1 = [x]) :
    m = x :: m.drop 1 := by
  cases m with
  | nil => simp at h
  | cons y r =>
    simp only [List.take_succ_cons, List.take_zero, List.cons.injEq, and_true] at h
    simp [h]

theorem emailRegexTest_iff (s : String) : emailRegexTest s = true ↔ FormaEmail s := by
  unfold emailRegexTest FormaEmail
  simp only [List.any_eq_true, List.mem_range, Bool.and_eq_true, beq_iff_eq, blocoEmail_iff]
  constructor
  · rintro ⟨i, -, j, -, ⟨⟨⟨⟨h1, h1b⟩, h2⟩, ⟨h3, h3b⟩⟩, h4⟩, ⟨h5, h5b⟩⟩
    have e2 := take_one_eq_singleton _ _ h2
    have e4 := take_one_eq_singleton _ _ h4
    rw [List.drop_drop] at e2 e4
    refine ⟨s.data.take i, (s.data.drop (i + 1)).take j, s.data.drop (i + 1 + j + 1), ?_,
      h1, h3, h5, ?_⟩
    · have a1 : s.data = s.data.take i ++ s.data.drop i := (List.take_append_drop i _).symm
      have a2 : s.data.drop (i + 1) =
          (s.data.drop (i + 1)).take j ++ (s.data.drop (i + 1)).drop j :=
        (List.take_append_drop j _).symm
      have a3 : (s.data.drop (i + 1)).drop j = s.data.drop (i + 1 + j) := by
        rw [List.drop_drop]
      rw [a3, e4] at a2
      rw [e2, a2] at a1
      exact a1
    · intro c hc
      simp only [List.append_assoc, List.mem_append] at hc
      rcases hc with hc | hc | hc
      · exact h1b c hc
      · exact h3b c hc
      · exact h5b c hc
  · rintro ⟨loc, a, b, hs, h1, h2, h3, h4⟩
    have hl : s.data.length = loc.length + 1 + a.length + 1 + b.length := by
      rw [hs]; simp; omega
    have t1 : s.data.take loc.length = loc := by rw [hs]; exact List.take_left' rfl
    have d1 : s.data.drop loc.length = '@' :: (a ++ '.' :: b) := by
      rw [hs]; exact List.drop_left' rfl
    have d2 : s.data.drop (loc.length + 1) = a ++ '.' :: b := by
      rw [← List.drop_drop, d1]; rfl
    have d3 : s.data.drop (loc.length + 1 + a.length) = '.' :: b := by
      rw [← List.drop_drop, d2]; exact List.drop_left' rfl
    have d4 : s.data.drop (loc.length + 1 + a.length + 1) = b := by
      rw [← List.drop_drop, d3]; rfl
    refine ⟨loc.length, by omega, a.length, by omega, ?_⟩
    rw [t1, d1, d2, d3, d4, List.take_left' rfl]
    refine ⟨⟨⟨⟨⟨h1, ?_⟩, rfl⟩, ⟨h2, ?_⟩⟩, rfl⟩, ⟨h3, ?_⟩⟩
    · exact fun c hc => h4 c (by simp [hc])
    · exact fun c hc => h4 c (by simp [hc])
    · exact fun c hc => h4 c (by simp [hc])

/-! ## Claims on `adicionarCliente` -/

theorem ouNull_eq (t : String) : ouNull t = if t = "" then none else some t := rfl

theorem ehCanonico_formatarCPF (cpf : String) (h : ClienteJs.validarCPF cpf = true) :
    ehCanonico (ClienteJs.formatarCPF cpf) = true := by
  by_cases hl : (apenasDigitos cpf).data.length = 11
  · obtain ⟨c0, c1, c2, c3, c4, c5, c6, c7, c8, c9, c10, hd⟩ := exists_of_length_eleven _ hl
    have hall := apenasDigitos_all cpf
    rw [hd] at hall
    have e : ClienteJs.formatarCPF cpf =
        ⟨[c0, c1, c2, '.', c3, c4, c5, '.', c6, c7, c8, '-', c9, c10]⟩ := by
      rw [clienteJs_formatarCPF_def, string_length_eq, if_pos hl, hd,
        substituirPadrao_digitos _ _ _ _ _ _ _ _ _ _ _ [] hall]
    rw [e]
    simp only [ehCanonico, List.all_eq_true]
    exact hall
  · rw [clienteJs_validarCPF_short cpf hl] at h
    exact absurd h (by decide)

/-- C6: `adicionarCliente` of `cliente.js` is atomic on failure: whenever it returns
false the stored list is the list before the call; for every cpf that `validarCPF`
rejects it returns false and stores nothing, as for
`adicionarCliente("Ana Costa", "555.666.777.88")`. -/
theorem adicionarCliente_falha_atomica (agora : String) (clientes : List Cliente)
    (nome cpf email telefone : String) :
    ((ClienteJs.adicionarCliente agora clientes nome cpf email telefone).1 = false →
      (ClienteJs.adicionarCliente agora clientes nome cpf email telefone).2 = clientes) ∧
    (ClienteJs.validarCPF cpf = false →
      ClienteJs.adicionarCliente agora clientes nome cpf email telefone = (false, clientes)) ∧
    ClienteJs.adicionarCliente agora clientes "Ana Costa" "555.666.777.88" "" "" =
      (false, clientes) := by
  refine ⟨?_, ?_, ?_⟩
  · intro h
    rcases adicionarCliente_cases agora clientes nome cpf email telefone with ⟨e, -⟩ | ⟨e, -⟩
    · rw [e]
    · rw [e] at h
      exact absurd h (by simp)
  · intro h
    rcases adicionarCliente_cases agora clientes nome cpf email telefone with ⟨e, -⟩ | ⟨-, r⟩
    · exact e
    · rw [h] at r
      exact absurd r.2.2.1 (by decide)
  · rcases adicionarCliente_cases agora clientes "Ana Costa" "555.666.777.88" "" "" with
      ⟨e, -⟩ | ⟨-, r⟩
    · exact e
    · exact absurd r.2.2.1 (by decide)

/-- Witness of C6: the call with the CPF `555.666.777.88` on the empty store. -/
theorem adicionarCliente_falha_atomica_witness :
    (ClienteJs.adicionarCliente "2024-01-01" [] "Ana Costa" "555.666.777.88" "" "").1 = false ∧
    ClienteJs.validarCPF "555.666.777.88" = false ∧
    (ClienteJs.adicionarCliente "2024-01-01" [] "Ana Costa" "555.666.777.88" "" "").2 = [] :=
  ⟨by decide, by decide,
    (adicionarCliente_falha_atomica "2024-01-01" [] "Ana Costa" "555.666.777.88" "" "").1
      (by decide)⟩

/-- C7: `adicionarCliente` of `cliente.js` returns true exactly when the name and the
cpf are non-empty after trim, `validarCPF` accepts the cpf, no stored record has the
canonical cpf, and the email is empty after trim or its trimmed form has the shape
`local@domain.tld`. -/
theorem adicionarCliente_true_iff (agora : String) (clientes : List Cliente)
    (nome cpf email telefone : String) :
    (ClienteJs.adicionarCliente agora clientes nome cpf email telefone).1 = true ↔
      trim nome ≠ "" ∧ trim cpf ≠ "" ∧ ClienteJs.validarCPF cpf = true ∧
      (∀ r ∈ clientes, r.cpf ≠ ClienteJs.formatarCPF cpf) ∧
      (trim email = "" ∨ FormaEmail (trim email)) := by
  rw [← emailRegexTest_iff]
  rcases adicionarCliente_cases agora clientes nome cpf email telefone with ⟨e, r⟩ | ⟨e, r⟩
  · rw [e]
    constructor
    · intro h
      exact absurd h (by simp)
    · rintro ⟨a1, a2, a3, a4, a5⟩
      rcases r with r | r | r | ⟨x, hx, hx2⟩ | ⟨r1, r2⟩
      · exact absurd r a1
      · exact absurd r a2
      · rw [a3] at r
        exact absurd r (by decide)
      · exact absurd hx2 (a4 x hx)
      · rcases a5 with a5 | a5
        · exact absurd a5 r1
        · rw [a5] at r2
          exact absurd r2 (by decide)
  · rw [e]
    exact ⟨fun _ => r, fun _ => rfl⟩

/-- C8: creating a record with a CPF already present fails, whatever the `ativo`
flag of the record that holds it and whatever punctuation the given cpf uses; the
store is left as it was. -/
theorem adicionarCliente_cpf_duplicado (agora : String) (clientes : List Cliente)
    (nome cpf email telefone : String) (r : Cliente) (hr : r ∈ clientes)
    (hcpf : r.cpf = ClienteJs.formatarCPF cpf) :
    ClienteJs.adicionarCliente agora clientes nome cpf email telefone = (false, clientes) := by
  rcases adicionarCliente_cases agora clientes nome cpf email telefone with ⟨e, -⟩ | ⟨-, h⟩
  · exact e
  · exact absurd hcpf (h.2.2.2.1 r hr)

/-- Witness of C8: the stored record is inactive and the cpf is given without
punctuation. -/
theorem adicionarCliente_cpf_duplicado_witness :
    (Cliente.mk 1 "Ana" "123.456.789-09" none none "2024-01-01" false none (some "2024-02-01"))
        ∈ [Cliente.mk 1 "Ana" "123.456.789-09" none none "2024-01-01" false none
            (some "2024-02-01")] ∧
      "123.456.789-09" = ClienteJs.formatarCPF "12345678909" ∧
      ClienteJs.adicionarCliente "2024-03-01"
          [Cliente.mk 1 "Ana" "123.456.789-09" none none "2024-01-01" false none
            (some "2024-02-01")] "Bia" "12345678909" "" "" =
        (false, [Cliente.mk 1 "Ana" "123.456.789-09" none none "2024-01-01" false none
            (some "2024-02-01")]) :=
  ⟨List.mem_singleton.2 rfl, by decide,
    adicionarCliente_cpf_duplicado "2024-03-01" _ "Bia" "12345678909" "" ""
      (Cliente.mk 1 "Ana" "123.456.789-09" none none "2024-01-01" false none (some "2024-02-01"))
      (List.mem_singleton.2 rfl) (by decide)⟩

/-- C9: when `adicionarCliente` of `cliente.js` returns true on a store holding `L`,
the new store is `L` followed by exactly one record, with `id = length L + 1`, the
trimmed name, `cpf = formatarCPF cpf` which matches `ddd.ddd.ddd-dd`, `ativo = true`,
and email and telefone equal to their trimmed value, or null when that is empty. -/
theorem adicionarCliente_registro_novo (agora : String) (L : List Cliente)
    (nome cpf email telefone : String)
    (h : (ClienteJs.adicionarCliente agora L nome cpf email telefone).1 = true) :
    ∃ novo : Cliente,
      (ClienteJs.adicionarCliente agora L nome cpf email telefone).2 = L ++ [novo] ∧
      novo.id = L.length + 1 ∧
      novo.nome = trim nome ∧
      novo.cpf = ClienteJs.formatarCPF cpf ∧
      ehCanonico novo.cpf = true ∧
      novo.ativo = true ∧
      novo.email = (if trim email = "" then none else some (trim email)) ∧
      novo.telefone = (if trim telefone = "" then none else some (trim telefone)) := by
  rcases adicionarCliente_cases agora L nome cpf email telefone with ⟨e, -⟩ | ⟨e, r⟩
  · rw [e] at h
    exact absurd h (by simp)
  · rw [e]
    exact ⟨_, rfl, rfl, rfl, rfl, ehCanonico_formatarCPF cpf r.2.2.1, rfl, rfl, rfl⟩

/-- Witness of C9: a first client added to the empty store. -/
theorem adicionarCliente_registro_novo_witness :
    (ClienteJs.adicionarCliente "2024-01-01" [] " Ana " "12345678909" "" " 99 ").1 = true ∧
    ∃ novo : Cliente,
      (ClienteJs.adicionarCliente "2024-01-01" [] " Ana " "12345678909" "" " 99 ").2 =
        [] ++ [novo] ∧
      novo.id = ([] : List Cliente).length + 1 ∧
      novo.nome = trim " Ana " ∧
      novo.cpf = ClienteJs.formatarCPF "12345678909" ∧
      ehCanonico novo.cpf = true ∧
      novo.ativo = true ∧
      novo.email = (if trim "" = "" then none else some (trim "")) ∧
      novo.telefone = (if trim " 99 " = "" then none else some (trim " 99 ")) :=
  ⟨by decide,
    adicionarCliente_registro_novo "2024-01-01" [] " Ana " "12345678909" "" " 99 " (by decide)⟩

/-! ## CPF uniqueness in the reachable stores -/

theorem clienteJs_formatarCPF_idem (t : String) :
    ClienteJs.formatarCPF (ClienteJs.formatarCPF t) = ClienteJs.formatarCPF t := by
  rw [clienteJs_formatarCPF_def (ClienteJs.formatarCPF t), apenasDigitos_clienteJs_formatarCPF t]
  exact (clienteJs_formatarCPF_def t).symm

theorem clienteJs_formatarCPF_congr (a b : String) (h : apenasDigitos a = apenasDigitos b) :
    ClienteJs.formatarCPF a = ClienteJs.formatarCPF b := by
  rw [clienteJs_formatarCPF_def a, clienteJs_formatarCPF_def b, h]

theorem map_set_of_get? {α β : Type} (f : α → β) (l : List α) (i : Nat) (a b : α)
    (h : l.get? i = some a) (hb : f b = f a) : (l.set i b).map f = l.map f := by
  induction l generalizing i with
  | nil => simp
  | cons x r ih =>
    cases i with
    | zero =>
      simp only [List.get?_cons_zero, Option.some.injEq] at h
      simp [h, hb]
    | succ n =>
      simp only [List.get?_cons_succ] at h
      simp [ih n h]

theorem atualizarCliente_map_cpf (agora : String) (clientes : List Cliente) (cpf : String)
    (novosDados : NovosDados) :
    (ClienteJs.atualizarCliente agora clientes cpf novosDados).2.map (fun c => c.cpf) =
      clientes.map (fun c => c.cpf) := by
  unfold ClienteJs.atualizarCliente
  simp only []
  cases findIndex (fun c => c.cpf == ClienteJs.formatarCPF cpf) clientes with
  | none => rfl
  | some index =>
    simp only []
    cases hg : clientes.get? index with
    | none => rfl
    | some clienteAtual =>
      simp only []
      rcases novosDados with ⟨nome, email, telefone, ativo⟩
      cases nome <;> cases email <;> cases telefone <;> cases ativo <;> simp only [] <;>
        (try split_ifs) <;> first
          | rfl
          | exact map_set_of_get? _ _ _ _ _ hg rfl

theorem removerCliente_map_cpf (agora : String) (clientes : List Cliente) (cpf : String)
    (removerCompletamente : Bool) :
    ((ClienteJs.removerCliente agora clientes cpf removerCompletamente).2.map
      (fun c => c.cpf)).Sublist (clientes.map (fun c => c.cpf)) := by
  unfold ClienteJs.removerCliente
  simp only []
  cases findIndex (fun c => c.cpf == ClienteJs.formatarCPF cpf) clientes with
  | none => exact List.Sublist.refl _
  | some index =>
    simp only []
    cases hg : clientes.get? index with
    | none => exact List.Sublist.refl _
    | some cliente =>
      simp only []
      cases removerCompletamente with
      | true =>
        simp only [if_true]
        exact (List.eraseIdx_sublist clientes index).map _
      | false =>
        simp only [Bool.false_eq_true, if_false]
        have e := map_set_of_get? (fun c : Cliente => c.cpf) clientes index cliente
          { cliente with ativo := false, data_desativacao := some agora } hg rfl
        rw [e]

/-- In a reachable store every stored cpf is a fixed point of `formatarCPF` and no
cpf string occurs twice. -/
theorem alcancavel_cpfs (s : List Cliente) (h : ClienteJs.Alcancavel s) :
    (∀ c ∈ s.map (fun c => c.cpf), ClienteJs.formatarCPF c = c) ∧
      (s.map (fun c => c.cpf)).Nodup := by
  induction h with
  | vazio => simp
  | adicionar agora nome cpf email telefone hs ih =>
    rename_i s0
    rcases adicionarCliente_cases agora s0 nome cpf email telefone with ⟨e, -⟩ | ⟨e, r⟩
    · rw [e]; exact ih
    · rw [e]
      simp only [List.map_append, List.map_cons, List.map_nil]
      constructor
      · intro c hc
        rw [List.mem_append, List.mem_singleton] at hc
        rcases hc with hc | hc
        · exact ih.1 c hc
        · rw [hc]; exact clienteJs_formatarCPF_idem cpf
      · rw [List.nodup_append]
        refine ⟨ih.2, List.nodup_singleton _, ?_⟩
        intro c hc hc2
        rw [List.mem_singleton] at hc2
        rw [List.mem_map] at hc
        obtain ⟨x, hx, hx2⟩ := hc
        exact r.2.2.2.1 x hx (hx2.trans hc2)
  | atualizar agora cpf novosDados hs ih =>
    rw [atualizarCliente_map_cpf]
    exact ih
  | remover agora cpf removerCompletamente hs ih =>
    rename_i s0
    have hsub := removerCliente_map_cpf agora s0 cpf removerCompletamente
    exact ⟨fun c hc => ih.1 c (hsub.subset hc), ih.2.sublist hsub⟩

theorem lojaExemplo_alcancavel : ClienteJs.Alcancavel lojaExemplo := by
  have h1 := ClienteJs.Alcancavel.adicionar "2024-01-01" "Ana" "123.456.789-09" "" ""
    ClienteJs.Alcancavel.vazio
  have h2 := ClienteJs.Alcancavel.adicionar "2024-01-02" "Bia" "98765432100" "bia@mail.com" "" h1
  have e : (ClienteJs.adicionarCliente "2024-01-02"
      (ClienteJs.adicionarCliente "2024-01-01" [] "Ana" "123.456.789-09" "" "").2
      "Bia" "98765432100" "bia@mail.com" "").2 = lojaExemplo := by decide
  rw [e] at h2
  exact h2

/-- C10: in every store reachable from the empty store by `adicionarCliente`,
`atualizarCliente` and `removerCliente` (soft or hard), two records at distinct
positions never have CPFs with the same digit sequence, active or not. -/
theorem cpf_unico_alcancavel (s : List Cliente) (h : ClienteJs.Alcancavel s) (i j : Nat)
    (a b : Cliente) (hij : i ≠ j) (ha : s[i]? = some a) (hb : s[j]? = some b) :
    asciiDigitChars a.cpf ≠ asciiDigitChars b.cpf := by
  obtain ⟨hfix, hnd⟩ := alcancavel_cpfs s h
  intro hd
  rw [asciiDigitChars_eq, asciiDigitChars_eq] at hd
  have hd2 : apenasDigitos a.cpf = apenasDigitos b.cpf := by
    cases ha2 : apenasDigitos a.cpf
    cases hb2 : apenasDigitos b.cpf
    rw [ha2, hb2] at hd
    simp only at hd
    rw [hd]
  have hma : (s.map (fun c => c.cpf))[i]? = some a.cpf := by simp [ha]
  have hmb : (s.map (fun c => c.cpf))[j]? = some b.cpf := by simp [hb]
  have ea : ClienteJs.formatarCPF a.cpf = a.cpf := hfix _ (List.getElem?_mem hma)
  have eb : ClienteJs.formatarCPF b.cpf = b.cpf := hfix _ (List.getElem?_mem hmb)
  have hab : a.cpf = b.cpf := by
    rw [← ea, ← eb]
    exact clienteJs_formatarCPF_congr _ _ hd2
  rw [List.nodup_iff_getElem?_ne_getElem?] at hnd
  obtain ⟨hi, -⟩ := List.getElem?_eq_some.1 hma
  obtain ⟨hj, -⟩ := List.getElem?_eq_some.1 hmb
  rcases Nat.lt_or_gt_of_ne hij with hlt | hgt
  · exact hnd i j hlt hj (by rw [hma, hmb, hab])
  · exact hnd j i hgt hi (by rw [hma, hmb, hab])

/-- Witness of C10: the two records of a store built by two calls of
`adicionarCliente`. -/
theorem cpf_unico_alcancavel_witness :
    ClienteJs.Alcancavel lojaExemplo ∧ (0 : Nat) ≠ 1 ∧
    lojaExemplo[0]? =
      some (Cliente.mk 1 "Ana" "123.456.789-09" none none "2024-01-01" true none none) ∧
    lojaExemplo[1]? =
      some (Cliente.mk 2 "Bia" "987.654.321-00" (some "bia@mail.com") none "2024-01-02" true
        none none) ∧
    asciiDigitChars "123.456.789-09" ≠ asciiDigitChars "987.654.321-00" :=
  ⟨lojaExemplo_alcancavel, by decide, rfl, rfl,
    cpf_unico_alcancavel lojaExemplo lojaExemplo_alcancavel 0 1
      (Cliente.mk 1 "Ana" "123.456.789-09" none none "2024-01-01" true none none)
      (Cliente.mk 2 "Bia" "987.654.321-00" (some "bia@mail.com") none "2024-01-02" true
        none none) (by decide) rfl rfl⟩

/-! ## `findIndex` and `atualizarCliente` in closed form -/

theorem findIndex_some {α : Type} {p : α → Bool} {l : List α} {i : Nat}
    (h : findIndex p l = some i) :
    ∃ a, l[i]? = some a ∧ p a = true ∧ ∀ j b, j < i → l[j]? = some b → p b = false := by
  induction l generalizing i with
  | nil => simp [findIndex] at h
  | cons x r ih =>
    unfold findIndex at h
    by_cases hx : p x = true
    · rw [if_pos hx] at h
      cases h
      exact ⟨x, List.getElem?_cons_zero, hx, fun j b hj => absurd hj (Nat.not_lt_zero j)⟩
    · rw [if_neg hx] at h
      cases hr : findIndex p r with
      | none => rw [hr] at h; simp at h
      | some k =>
        rw [hr] at h
        simp only [Option.map_some', Option.some.injEq] at h
        subst h
        obtain ⟨a, ha, hpa, hlt⟩ := ih hr
        refine ⟨a, by simpa using ha, hpa, ?_⟩
        intro j b hj hb
        cases j with
        | zero =>
          simp only [List.getElem?_cons_zero, Option.some.injEq] at hb
          subst hb
          simpa using hx
        | succ n =>
          simp only [List.getElem?_cons_succ] at hb
          exact hlt n b (by omega) hb

theorem findIndex_none {α : Type} {p : α → Bool} {l : List α} (h : findIndex p l = none) :
    ∀ a ∈ l, p a = false := by
  induction l with
  | nil => simp
  | cons x r ih =>
    unfold findIndex at h
    by_cases hx : p x = true
    · rw [if_pos hx] at h
      cases h
    · rw [if_neg hx] at h
      cases hr : findIndex p r with
      | none =>
        intro a ha
        rcases List.mem_cons.1 ha with rfl | ha
        · simpa using hx
        · exact ih hr a ha
      | some k => rw [hr] at h; simp at h

theorem findIndex_of_mem {α : Type} {p : α → Bool} {l : List α} {a : α} (ha : a ∈ l)
    (hp : p a = true) : ∃ i, findIndex p l = some i := by
  cases h : findIndex p l with
  | none =>
    have := findIndex_none h a ha
    rw [hp] at this
    cases this
  | some i => exact ⟨i, rfl⟩

theorem find?_of_findIndex {α : Type} {p : α → Bool} {l : List α} {i : Nat}
    (h : findIndex p l = some i) : l.find? p = l[i]? := by
  induction l generalizing i with
  | nil => simp [findIndex] at h
  | cons x r ih =>
    unfold findIndex at h
    by_cases hx : p x = true
    · rw [if_pos hx] at h
      cases h
      simp [List.find?, hx]
    · rw [if_neg hx] at h
      cases hr : findIndex p r with
      | none => rw [hr] at h; simp at h
      | some k =>
        rw [hr] at h
        simp only [Option.map_some', Option.some.injEq] at h
        subst h
        have hx2 : p x = false := by simpa using hx
        simp [List.find?, hx2, ih hr]

theorem find?_set_of_findIndex {α : Type} {p : α → Bool} {l : List α} {i : Nat} (b : α)
    (h : findIndex p l = some i) (hb : p b = true) : (l.set i b).find? p = some b := by
  induction l generalizing i with
  | nil => simp [findIndex] at h
  | cons x r ih =>
    unfold findIndex at h
    by_cases hx : p x = true
    · rw [if_pos hx] at h
      cases h
      simp [List.find?, hb]
    · rw [if_neg hx] at h
      cases hr : findIndex p r with
      | none => rw [hr] at h; simp at h
      | some k =>
        rw [hr] at h
        simp only [Option.map_some', Option.some.injEq] at h
        subst h
        have hx2 : p x = false := by simpa using hx
        simp [List.find?, hx2, ih hr]

/-- The three outcomes of `atualizarCliente`: no record with the cpf, an email that
is refused, or the target replaced by `registroAtualizado`. -/
theorem atualizarCliente_cases (agora : String) (clientes : List Cliente) (cpf : String)
    (novosDados : NovosDados) :
    (findIndex (fun c => c.cpf == ClienteJs.formatarCPF cpf) clientes = none ∧
      ClienteJs.atualizarCliente agora clientes cpf novosDados = (false, clientes)) ∨
    (∃ index alvo,
      findIndex (fun c => c.cpf == ClienteJs.formatarCPF cpf) clientes = some index ∧
      clientes[index]? = some alvo ∧ alvo.cpf = ClienteJs.formatarCPF cpf ∧
      ((emailRecusado novosDados ∧
          ClienteJs.atualizarCliente agora clientes cpf novosDados = (false, clientes)) ∨
        (¬ emailRecusado novosDados ∧
          ClienteJs.atualizarCliente agora clientes cpf novosDados =
            (true, clientes.set index (registroAtualizado agora alvo novosDados))))) := by
  unfold ClienteJs.atualizarCliente
  simp only []
  cases hf : findIndex (fun c => c.cpf == ClienteJs.formatarCPF cpf) clientes with
  | none => exact Or.inl ⟨rfl, rfl⟩
  | some index =>
    right
    obtain ⟨alvo, halvo, hp, -⟩ := findIndex_some hf
    have hcpf : alvo.cpf = ClienteJs.formatarCPF cpf := by simpa using hp
    refine ⟨index, alvo, rfl, halvo, hcpf, ?_⟩
    have hg : clientes.get? index = some alvo := by simpa using halvo
    simp only [hg]
    rcases novosDados with ⟨nome, email, telefone, ativo⟩
    cases email with
    | none =>
      right
      refine ⟨?_, ?_⟩
      · rintro ⟨e, he, -⟩
        cases he
      · cases nome <;> cases telefone <;> cases ativo <;>
          simp only [registroAtualizado] <;> (try split_ifs) <;> rfl
    | some e =>
      by_cases h1 : trim e ≠ ""
      · by_cases h2 : emailRegexTest (trim e) = false
        · left
          refine ⟨⟨e, rfl, h1, h2⟩, ?_⟩
          simp only [h1, h2, ne_eq, not_false_eq_true, if_true]
        · right
          have h2b : emailRegexTest (trim e) = true := by simpa using h2
          refine ⟨?_, ?_⟩
          · rintro ⟨e2, he, -, h3⟩
            cases he
            exact h2 h3
          · cases nome <;> cases telefone <;> cases ativo <;>
              simp only [registroAtualizado, h1, h2b, ne_eq, not_false_eq_true, if_true,
                if_false, Bool.true_eq_false] <;> (try split_ifs) <;> rfl
      · right
        refine ⟨?_, ?_⟩
        · rintro ⟨e2, he, h3, -⟩
          cases he
          exact h1 h3
        · cases nome <;> cases telefone <;> cases ativo <;>
            simp only [registroAtualizado, h1, ne_eq, not_false_eq_true, if_true,
              if_false] <;> (try split_ifs) <;> rfl

/-- The two outcomes of `removerCliente`: no record with the cpf, or the first record
with the cpf erased (hard) or marked inactive (soft). -/
theorem removerCliente_cases (agora : String) (clientes : List Cliente) (cpf : String)
    (removerCompletamente : Bool) :
    (findIndex (fun c => c.cpf == ClienteJs.formatarCPF cpf) clientes = none ∧
      ClienteJs.removerCliente agora clientes cpf removerCompletamente = (false, clientes)) ∨
    (∃ index alvo,
      findIndex (fun c => c.cpf == ClienteJs.formatarCPF cpf) clientes = some index ∧
      clientes[index]? = some alvo ∧ alvo.cpf = ClienteJs.formatarCPF cpf ∧
      ClienteJs.removerCliente agora clientes cpf removerCompletamente =
        (true, if removerCompletamente = true then clientes.eraseIdx index
          else clientes.set index
            { alvo with ativo := false, data_desativacao := some agora })) := by
  unfold ClienteJs.removerCliente
  simp only []
  cases hf : findIndex (fun c => c.cpf == ClienteJs.formatarCPF cpf) clientes with
  | none => exact Or.inl ⟨rfl, rfl⟩
  | some index =>
    right
    obtain ⟨alvo, halvo, hp, -⟩ := findIndex_some hf
    have hcpf : alvo.cpf = ClienteJs.formatarCPF cpf := by simpa using hp
    refine ⟨index, alvo, rfl, halvo, hcpf, ?_⟩
    have hg : clientes.get? index = some alvo := by simpa using halvo
    simp only [hg]
    cases removerCompletamente <;> simp

theorem atualizarCliente_map {β : Type} (f : Cliente → β)
    (hf : ∀ agora alvo novosDados, f (registroAtualizado agora alvo novosDados) = f alvo)
    (agora : String) (clientes : List Cliente) (cpf : String) (novosDados : NovosDados) :
    (ClienteJs.atualizarCliente agora clientes cpf novosDados).2.map f = clientes.map f := by
  rcases atualizarCliente_cases agora clientes cpf novosDados with
    ⟨-, e⟩ | ⟨index, alvo, -, halvo, -, ⟨-, e⟩ | ⟨-, e⟩⟩
  · rw [e]
  · rw [e]
  · rw [e]
    exact map_set_of_get? f clientes index alvo _ (by simpa using halvo) (hf _ _ _)

theorem desativar_map {β : Type} (f : Cliente → β)
    (hf : ∀ (agora : String) (alvo : Cliente),
      f { alvo with ativo := false, data_desativacao := some agora } = f alvo)
    (agora : String) (clientes : List Cliente) (cpf : String) :
    (ClienteJs.removerCliente agora clientes cpf false).2.map f = clientes.map f := by
  rcases removerCliente_cases agora clientes cpf false with ⟨-, e⟩ | ⟨index, alvo, -, halvo, -, e⟩
  · rw [e]
  · rw [e]
    simp only [Bool.false_eq_true, if_false]
    exact map_set_of_get? f clientes index alvo _ (by simpa using halvo) (hf _ _)

/-! ## Identifiers -/

/-- Without a hard delete the ids of the stored records are `1, 2, ..., n`. -/
theorem ids_sem_exclusao (s : List Cliente) (h : ClienteJs.AlcancavelSemExclusao s) :
    s.map (fun c => c.id) = (List.range s.length).map (· + 1) := by
  induction h with
  | vazio => rfl
  | adicionar agora nome cpf email telefone hs ih =>
    rename_i s0
    rcases adicionarCliente_cases agora s0 nome cpf email telefone with ⟨e, -⟩ | ⟨e, -⟩
    · rw [e]; exact ih
    · rw [e]
      simp only [List.map_append, List.map_cons, List.map_nil, List.length_append,
        List.length_singleton, List.range_succ, ih]
  | atualizar agora cpf novosDados hs ih =>
    rename_i s0
    have e := atualizarCliente_map (fun c => c.id) (fun _ _ _ => rfl) agora s0 cpf novosDados
    have hl : (ClienteJs.atualizarCliente agora s0 cpf novosDados).2.length = s0.length := by
      have := congrArg List.length e
      simpa using this
    rw [e, hl, ih]
  | desativar agora cpf hs ih =>
    rename_i s0
    have e := desativar_map (fun c => c.id) (fun _ _ => rfl) agora s0 cpf
    have hl : (ClienteJs.removerCliente agora s0 cpf false).2.length = s0.length := by
      have := congrArg List.length e
      simpa using this
    rw [e, hl, ih]

theorem lojaIdRepetido_alcancavel : ClienteJs.AlcancavelExclusao lojaIdRepetido := by
  have h1 := ClienteJs.AlcancavelExclusao.adicionar "2024-01-01" "Ana" "123.456.789-09" "" ""
    ClienteJs.AlcancavelExclusao.vazio
  have h2 := ClienteJs.AlcancavelExclusao.adicionar "2024-01-02" "Bia" "98765432100" "" "" h1
  have h3 := ClienteJs.AlcancavelExclusao.remover "2024-01-03" "123.456.789-09" h2
  have h4 := ClienteJs.AlcancavelExclusao.adicionar "2024-01-04" "Caio" "88765432100" "" "" h3
  have e : (ClienteJs.adicionarCliente "2024-01-04"
      (ClienteJs.removerCliente "2024-01-03"
        (ClienteJs.adicionarCliente "2024-01-02"
          (ClienteJs.adicionarCliente "2024-01-01" [] "Ana" "123.456.789-09" "" "").2
          "Bia" "98765432100" "" "").2 "123.456.789-09" true).2
      "Caio" "88765432100" "" "").2 = lojaIdRepetido := by decide
  rw [e] at h4
  exact h4

theorem lojaExemplo_sem_exclusao : ClienteJs.AlcancavelSemExclusao lojaExemplo := by
  have h1 := ClienteJs.AlcancavelSemExclusao.adicionar "2024-01-01" "Ana" "123.456.789-09" "" ""
    ClienteJs.AlcancavelSemExclusao.vazio
  have h2 := ClienteJs.AlcancavelSemExclusao.adicionar "2024-01-02" "Bia" "98765432100"
    "bia@mail.com" "" h1
  have e : (ClienteJs.adicionarCliente "2024-01-02"
      (ClienteJs.adicionarCliente "2024-01-01" [] "Ana" "123.456.789-09" "" "").2
      "Bia" "98765432100" "bia@mail.com" "").2 = lojaExemplo := by decide
  rw [e] at h2
  exact h2

/-- C11, counterexample: after Ana, Bia are added, Ana is removed completely and
Caio is added, the store holds two records with id 2, so some store reachable by
`adicionarCliente` and `removerCliente(cpf, true)` has a repeated id. -/
theorem ids_repetidos_apos_exclusao :
    ¬ ∀ s : List Cliente, ClienteJs.AlcancavelExclusao s → (s.map (fun c => c.id)).Nodup := by
  intro h
  have := h lojaIdRepetido lojaIdRepetido_alcancavel
  revert this
  decide

/-- C11, amended: in every store reachable from the empty store by `adicionarCliente`,
`atualizarCliente` and the soft delete `removerCliente(cpf, false)`, the record at
position `k` has id `k + 1`, no two records have the same id, and a record created
next receives the id `length + 1`, which no stored record holds. -/
theorem ids_unicos_sem_exclusao (s : List Cliente) (h : ClienteJs.AlcancavelSemExclusao s) :
    (∀ k r, s[k]? = some r → r.id = k + 1) ∧
    (s.map (fun c => c.id)).Nodup ∧
    ∀ agora nome cpf email telefone,
      (ClienteJs.adicionarCliente agora s nome cpf email telefone).1 = true →
      ∃ novo, (ClienteJs.adicionarCliente agora s nome cpf email telefone).2 = s ++ [novo] ∧
        novo.id = s.length + 1 ∧ ∀ r ∈ s, r.id ≠ novo.id := by
  have hid := ids_sem_exclusao s h
  have hpos : ∀ k r, s[k]? = some r → r.id = k + 1 := by
    intro k r hk
    have h1 : (s.map (fun c => c.id))[k]? = some r.id := by simp [hk]
    rw [hid] at h1
    simp only [List.getElem?_map, Option.map_eq_some'] at h1
    obtain ⟨a, ha, ha2⟩ := h1
    rw [List.getElem?_range (by
      rcases List.getElem?_eq_some.1 hk with ⟨hlt, -⟩
      exact hlt)] at ha
    cases ha
    exact ha2.symm
  refine ⟨hpos, ?_, ?_⟩
  · rw [hid]
    exact (List.nodup_range _).map (fun a b hab => Nat.succ_injective hab)
  · intro agora nome cpf email telefone hok
    rcases adicionarCliente_cases agora s nome cpf email telefone with ⟨e, -⟩ | ⟨e, -⟩
    · rw [e] at hok
      exact absurd hok (by simp)
    · rw [e]
      refine ⟨_, rfl, rfl, ?_⟩
      intro r hr
      obtain ⟨k, hk⟩ := List.mem_iff_getElem?.1 hr
      have h1 := hpos k r hk
      rcases List.getElem?_eq_some.1 hk with ⟨hlt, -⟩
      show r.id ≠ s.length + 1
      omega

/-- Witness of C11 amended: the store of Ana and Bia. -/
theorem ids_unicos_sem_exclusao_witness :
    ClienteJs.AlcancavelSemExclusao lojaExemplo ∧
    (∀ k r, lojaExemplo[k]? = some r → r.id = k + 1) ∧
    (lojaExemplo.map (fun c => c.id)).Nodup ∧
    ∀ agora nome cpf email telefone,
      (ClienteJs.adicionarCliente agora lojaExemplo nome cpf email telefone).1 = true →
      ∃ novo, (ClienteJs.adicionarCliente agora lojaExemplo nome cpf email telefone).2 =
          lojaExemplo ++ [novo] ∧
        novo.id = lojaExemplo.length + 1 ∧ ∀ r ∈ lojaExemplo, r.id ≠ novo.id :=
  ⟨lojaExemplo_sem_exclusao, ids_unicos_sem_exclusao lojaExemplo lojaExemplo_sem_exclusao⟩

/-! ## Claims on `atualizarCliente` -/

/-- C12: an update whose patch carries an email that is non-empty after trim and
fails the email test returns false and leaves the stored list exactly as it was,
whatever else the patch carries. -/
theorem atualizarCliente_email_invalido (agora : String) (clientes : List Cliente)
    (cpf : String) (novosDados : NovosDados) (email : String)
    (he : novosDados.email = some email) (h1 : trim email ≠ "")
    (h2 : emailRegexTest (trim email) = false) :
    ClienteJs.atualizarCliente agora clientes cpf novosDados = (false, clientes) := by
  rcases atualizarCliente_cases agora clientes cpf novosDados with
    ⟨-, e⟩ | ⟨index, alvo, -, -, -, ⟨-, e⟩ | ⟨hn, -⟩⟩
  · exact e
  · exact e
  · exact absurd ⟨email, he, h1, h2⟩ hn

/-- Witness of C12: the patch also carries a new name, telephone and `ativo`. -/
theorem atualizarCliente_email_invalido_witness :
    (NovosDados.mk (some "Ana Maria") (some "invalido") (some "88") (some false)).email =
        some "invalido" ∧
      trim "invalido" ≠ "" ∧ emailRegexTest (trim "invalido") = false ∧
      ClienteJs.atualizarCliente "2024-02-01" lojaTelefone "12345678909"
          (NovosDados.mk (some "Ana Maria") (some "invalido") (some "88") (some false)) =
        (false, lojaTelefone) :=
  ⟨rfl, by decide, by decide,
    atualizarCliente_email_invalido "2024-02-01" lojaTelefone "12345678909"
      (NovosDados.mk (some "Ana Maria") (some "invalido") (some "88") (some false)) "invalido"
      rfl (by decide) (by decide)⟩

/-- C13: a successful `atualizarCliente` replaces one record, the first with the
canonical cpf, and nothing else: the list keeps its length and its other records,
the target keeps `id`, `cpf` and `data_cadastro`, and each of `nome`, `email`,
`telefone`, `ativo` that is absent from the patch keeps its value. -/
theorem atualizarCliente_so_campos_do_patch (agora : String) (clientes : List Cliente)
    (cpf : String) (novosDados : NovosDados)
    (h : (ClienteJs.atualizarCliente agora clientes cpf novosDados).1 = true) :
    ∃ index alvo novo,
      clientes[index]? = some alvo ∧ alvo.cpf = ClienteJs.formatarCPF cpf ∧
      (ClienteJs.atualizarCliente agora clientes cpf novosDados).2 = clientes.set index novo ∧
      (ClienteJs.atualizarCliente agora clientes cpf novosDados).2.length = clientes.length ∧
      (∀ k, k ≠ index →
        (ClienteJs.atualizarCliente agora clientes cpf novosDados).2[k]? = clientes[k]?) ∧
      (ClienteJs.atualizarCliente agora clientes cpf novosDados).2[index]? = some novo ∧
      novo.id = alvo.id ∧ novo.cpf = alvo.cpf ∧ novo.data_cadastro = alvo.data_cadastro ∧
      (novosDados.nome = none → novo.nome = alvo.nome) ∧
      (novosDados.email = none → novo.email = alvo.email) ∧
      (novosDados.telefone = none → novo.telefone = alvo.telefone) ∧
      (novosDados.ativo = none → novo.ativo = alvo.ativo) := by
  rcases atualizarCliente_cases agora clientes cpf novosDados with
    ⟨-, e⟩ | ⟨index, alvo, -, halvo, hcpf, ⟨-, e⟩ | ⟨-, e⟩⟩
  · rw [e] at h; exact absurd h (by simp)
  · rw [e] at h; exact absurd h (by simp)
  · rw [e]
    obtain ⟨hlt, -⟩ := List.getElem?_eq_some.1 halvo
    refine ⟨index, alvo, registroAtualizado agora alvo novosDados, halvo, hcpf, rfl,
      List.length_set _ _ _, ?_, ?_, rfl, rfl, rfl, ?_, ?_, ?_, ?_⟩
    · intro k hk
      exact List.getElem?_set_ne (Ne.symm hk)
    · exact List.getElem?_set_self hlt
    · intro hn; simp only [registroAtualizado, hn]
    · intro hn; simp only [registroAtualizado, hn]
    · intro hn; simp only [registroAtualizado, hn]
    · intro hn; simp only [registroAtualizado, hn]

/-- Witness of C13: a patch with a new telephone only. -/
theorem atualizarCliente_so_campos_do_patch_witness :
    (ClienteJs.atualizarCliente "2024-02-01" lojaExemplo "98765432100"
        (NovosDados.mk none none (some "88") none)).1 = true ∧
    ∃ index alvo novo,
      lojaExemplo[index]? = some alvo ∧ alvo.cpf = ClienteJs.formatarCPF "98765432100" ∧
      (ClienteJs.atualizarCliente "2024-02-01" lojaExemplo "98765432100"
        (NovosDados.mk none none (some "88") none)).2 = lojaExemplo.set index novo ∧
      (ClienteJs.atualizarCliente "2024-02-01" lojaExemplo "98765432100"
        (NovosDados.mk none none (some "88") none)).2.length = lojaExemplo.length ∧
      (∀ k, k ≠ index →
        (ClienteJs.atualizarCliente "2024-02-01" lojaExemplo "98765432100"
          (NovosDados.mk none none (some "88") none)).2[k]? = lojaExemplo[k]?) ∧
      (ClienteJs.atualizarCliente "2024-02-01" lojaExemplo "98765432100"
        (NovosDados.mk none none (some "88") none)).2[index]? = some novo ∧
      novo.id = alvo.id ∧ novo.cpf = alvo.cpf ∧ novo.data_cadastro = alvo.data_cadastro ∧
      ((NovosDados.mk none none (some "88") none).nome = none → novo.nome = alvo.nome) ∧
      ((NovosDados.mk none none (some "88") none).email = none → novo.email = alvo.email) ∧
      ((NovosDados.mk none none (some "88") none).telefone = none →
        novo.telefone = alvo.telefone) ∧
      ((NovosDados.mk none none (some "88") none).ativo = none → novo.ativo = alvo.ativo) :=
  ⟨by decide,
    atualizarCliente_so_campos_do_patch "2024-02-01" lojaExemplo "98765432100"
      (NovosDados.mk none none (some "88") none) (by decide)⟩

/-- C14, counterexample: the patch has an empty `telefone` and an email that fails
the email test; the call returns false and the stored telephone is still `"99"`. -/
theorem atualizarCliente_telefone_vazio_nao_limpa :
    findIndex (fun c => c.cpf == ClienteJs.formatarCPF "123.456.789-09") lojaTelefone = some 0 ∧
    trim "" = "" ∧
    (ClienteJs.atualizarCliente "2024-02-01" lojaTelefone "123.456.789-09"
        (NovosDados.mk none (some "invalido") (some "") none)).1 = false ∧
    (ClienteJs.atualizarCliente "2024-02-01" lojaTelefone "123.456.789-09"
        (NovosDados.mk none (some "invalido") (some "") none)).2.map (fun c => c.telefone) =
      [some "99"] := by
  decide

/-- C14, amended: with the target record in the store, a patch whose email is empty
after trim makes the call succeed and stores `email = null`; a patch whose telefone
is empty after trim stores `telefone = null` when the patch carries no refused
email (the call then succeeds); a field omitted from the patch keeps its value. -/
theorem atualizarCliente_vazio_limpa (agora : String) (clientes : List Cliente) (cpf : String)
    (novosDados : NovosDados) (index : Nat) (alvo : Cliente)
    (hidx : findIndex (fun c => c.cpf == ClienteJs.formatarCPF cpf) clientes = some index)
    (halvo : clientes[index]? = some alvo) :
    (∀ email, novosDados.email = some email → trim email = "" →
      (ClienteJs.atualizarCliente agora clientes cpf novosDados).1 = true ∧
      ∃ novo, (ClienteJs.atualizarCliente agora clientes cpf novosDados).2[index]? = some novo ∧
        novo.email = none) ∧
    (∀ telefone, novosDados.telefone = some telefone → trim telefone = "" →
      ¬ emailRecusado novosDados →
      (ClienteJs.atualizarCliente agora clientes cpf novosDados).1 = true ∧
      ∃ novo, (ClienteJs.atualizarCliente agora clientes cpf novosDados).2[index]? = some novo ∧
        novo.telefone = none) ∧
    (novosDados.email = none →
      ∃ novo, (ClienteJs.atualizarCliente agora clientes cpf novosDados).2[index]? = some novo ∧
        novo.email = alvo.email) ∧
    (novosDados.telefone = none →
      ∃ novo, (ClienteJs.atualizarCliente agora clientes cpf novosDados).2[index]? = some novo ∧
        novo.telefone = alvo.telefone) := by
  obtain ⟨hlt, -⟩ := List.getElem?_eq_some.1 halvo
  have key : (ClienteJs.atualizarCliente agora clientes cpf novosDados = (false, clientes)) ∨
      (¬ emailRecusado novosDados ∧
        ClienteJs.atualizarCliente agora clientes cpf novosDados =
          (true, clientes.set index (registroAtualizado agora alvo novosDados))) := by
    rcases atualizarCliente_cases agora clientes cpf novosDados with
      ⟨hn, -⟩ | ⟨i2, a2, hi2, ha2, -, ⟨-, e⟩ | ⟨hr, e⟩⟩
    · rw [hidx] at hn; cases hn
    · exact Or.inl e
    · rw [hidx] at hi2
      cases hi2
      rw [halvo] at ha2
      cases ha2
      exact Or.inr ⟨hr, e⟩
  have ok : ¬ emailRecusado novosDados →
      ClienteJs.atualizarCliente agora clientes cpf novosDados =
        (true, clientes.set index (registroAtualizado agora alvo novosDados)) := by
    intro hr
    rcases atualizarCliente_cases agora clientes cpf novosDados with
      ⟨hn, -⟩ | ⟨i2, a2, hi2, ha2, -, ⟨hr2, -⟩ | ⟨-, e⟩⟩
    · rw [hidx] at hn; cases hn
    · exact absurd hr2 hr
    · rw [hidx] at hi2
      cases hi2
      rw [halvo] at ha2
      cases ha2
      exact e
  refine ⟨?_, ?_, ?_, ?_⟩
  · intro email he ht
    have hr : ¬ emailRecusado novosDados := by
      rintro ⟨e2, he2, h3, -⟩
      rw [he] at he2
      cases he2
      exact h3 ht
    rw [ok hr]
    refine ⟨rfl, _, List.getElem?_set_self hlt, ?_⟩
    simp only [registroAtualizado, he, ht, ne_eq, not_true_eq_false, if_false]
  · intro telefone he ht hr
    rw [ok hr]
    refine ⟨rfl, _, List.getElem?_set_self hlt, ?_⟩
    simp only [registroAtualizado, he, ht, ouNull, if_true]
  · intro hn
    rcases key with e | ⟨-, e⟩
    · rw [e]; exact ⟨alvo, halvo, rfl⟩
    · rw [e]
      refine ⟨_, List.getElem?_set_self hlt, ?_⟩
      simp only [registroAtualizado, hn]
  · intro hn
    rcases key with e | ⟨-, e⟩
    · rw [e]; exact ⟨alvo, halvo, rfl⟩
    · rw [e]
      refine ⟨_, List.getElem?_set_self hlt, ?_⟩
      simp only [registroAtualizado, hn]

/-- Witness of C14 amended: the store with Ana, whose telephone is `"99"`. -/
theorem atualizarCliente_vazio_limpa_witness :
    findIndex (fun c => c.cpf == ClienteJs.formatarCPF "12345678909") lojaTelefone = some 0 ∧
    lojaTelefone[0]? =
      some (Cliente.mk 1 "Ana" "123.456.789-09" (some "ana@mail.com") (some "99") "2024-01-01"
        true none none) ∧
    (ClienteJs.atualizarCliente "2024-02-01" lojaTelefone "12345678909"
      (NovosDados.mk none (some " ") (some "") none)).1 = true :=
  ⟨by decide, rfl,
    ((atualizarCliente_vazio_limpa "2024-02-01" lojaTelefone "12345678909"
      (NovosDados.mk none (some " ") (some "") none) 0
      (Cliente.mk 1 "Ana" "123.456.789-09" (some "ana@mail.com") (some "99") "2024-01-01"
        true none none) (by decide) rfl).1 " " rfl (by decide)).1⟩

/-! ## Claims on `removerCliente` -/

theorem ehEspaco_of_ehDigito (c : Char) (h : ehDigito c = true) : ehEspaco c = false := by
  rw [ehDigito_iff] at h
  unfold ehEspaco
  simp only [Bool.or_eq_false_iff, beq_eq_false_iff_ne, ne_eq, Bool.and_eq_false_imp,
    decide_eq_true_eq, decide_eq_false_iff_not]
  omega

theorem todos_espacos_of_trim_vazio (s : String) (h : trim s = "") :
    ∀ c ∈ s.data, ehEspaco c = true := by
  have h1 : (s.data.dropWhile ehEspaco).rdropWhile ehEspaco = [] := congrArg String.data h
  rw [List.rdropWhile_eq_nil_iff] at h1
  by_cases h2 : s.data.dropWhile ehEspaco = []
  · exact List.dropWhile_eq_nil_iff.1 h2
  · have h3 := List.head_dropWhile_not ehEspaco s.data h2
    have h4 := h1 _ (List.head_mem h2)
    rw [h4] at h3
    cases h3

theorem trim_ne_vazio_of_validarCPF (cpf : String) (h : ClienteJs.validarCPF cpf = true) :
    trim cpf ≠ "" := by
  intro ht
  have hall := todos_espacos_of_trim_vazio cpf ht
  have hd : (apenasDigitos cpf).data = [] := by
    rw [apenasDigitos_data, List.filter_eq_nil_iff]
    intro c hc hdig
    have := ehEspaco_of_ehDigito c hdig
    rw [hall c hc] at this
    cases this
  rw [clienteJs_validarCPF_short cpf (by rw [hd]; decide)] at h
  cases h

theorem trim_ne_vazio_ne (cpf : String) (h : trim cpf ≠ "") : ¬ (cpf = "" ∨ trim cpf = "") := by
  rintro (h1 | h1)
  · rw [h1] at h
    exact h trim_empty
  · exact h h1

theorem formatarCPF_vazio_of_trim_vazio (cpf : String) (h : trim cpf = "") :
    ClienteJs.formatarCPF cpf = "" := by
  have hall := todos_espacos_of_trim_vazio cpf h
  have hd : cpf.data.filter ehDigito = [] := by
    rw [List.filter_eq_nil_iff]
    intro c hc hdig
    have := ehEspaco_of_ehDigito c hdig
    rw [hall c hc] at this
    cases this
  have he : apenasDigitos cpf = "" := by
    show (⟨cpf.data.filter ehDigito⟩ : String) = ""
    rw [hd]
  rw [clienteJs_formatarCPF_def, he]
  decide

/-- Every store reachable by the operations of `cliente.js` holds no empty cpf: a
record is created only behind `validarCPF`, and no operation rewrites a cpf. -/
theorem alcancavel_cpf_nao_vazio (s : List Cliente) (h : ClienteJs.Alcancavel s) :
    ∀ c ∈ s.map (fun c => c.cpf), c ≠ "" := by
  induction h with
  | vazio => simp
  | adicionar agora nome cpf email telefone hs ih =>
    rename_i s0
    rcases adicionarCliente_cases agora s0 nome cpf email telefone with ⟨e, -⟩ | ⟨e, r⟩
    · rw [e]; exact ih
    · rw [e]
      simp only [List.map_append, List.map_cons, List.map_nil]
      intro c hc
      rw [List.mem_append, List.mem_singleton] at hc
      rcases hc with hc | hc
      · exact ih c hc
      · intro hn
        have hcan := ehCanonico_formatarCPF cpf r.2.2.1
        rw [← hc, hn] at hcan
        exact absurd hcan (by decide)
  | atualizar agora cpf novosDados hs ih =>
    rw [atualizarCliente_map_cpf]
    exact ih
  | remover agora cpf removerCompletamente hs ih =>
    rename_i s0
    have hsub := removerCliente_map_cpf agora s0 cpf removerCompletamente
    exact fun c hc => ih c (hsub.subset hc)

/-- C16: on a store that holds no empty cpf (every store written by the program is
one), when the soft delete `removerCliente(cpf, false)` returns true,
`buscarClientePorCpf(cpf)` returns the record it returned before, now with
`ativo = false` and `data_desativacao` set, its other fields (`id`, `nome`, `cpf`,
`email`, `telefone`, `data_cadastro`) as before, and every other record of the
store is unchanged. -/
theorem desativar_transicao_pura (agora : String) (clientes : List Cliente) (cpf : String)
    (hstore : ∀ r ∈ clientes, r.cpf ≠ "")
    (h : (ClienteJs.removerCliente agora clientes cpf false).1 = true) :
    ∃ index antes depois,
      clientes[index]? = some antes ∧
      ClienteJs.buscarClientePorCpf clientes cpf = some antes ∧
      (ClienteJs.removerCliente agora clientes cpf false).2[index]? = some depois ∧
      ClienteJs.buscarClientePorCpf (ClienteJs.removerCliente agora clientes cpf false).2 cpf =
        some depois ∧
      depois.ativo = false ∧ depois.data_desativacao = some agora ∧
      depois.id = antes.id ∧ depois.nome = antes.nome ∧ depois.cpf = antes.cpf ∧
      depois.email = antes.email ∧ depois.telefone = antes.telefone ∧
      depois.data_cadastro = antes.data_cadastro ∧
      (ClienteJs.removerCliente agora clientes cpf false).2.length = clientes.length ∧
      ∀ k : Nat, k ≠ index →
        (ClienteJs.removerCliente agora clientes cpf false).2[k]? = clientes[k]? := by
  rcases removerCliente_cases agora clientes cpf false with ⟨-, e⟩ | ⟨index, alvo, hi, halvo, hc, e⟩
  · rw [e] at h; exact absurd h (by simp)
  · have hcpf : trim cpf ≠ "" := by
      intro ht
      apply hstore alvo (List.getElem?_mem halvo)
      rw [hc]
      exact formatarCPF_vazio_of_trim_vazio cpf ht
    have hb := trim_ne_vazio_ne cpf hcpf
    rw [e]
    simp only [Bool.false_eq_true, if_false]
    obtain ⟨hlt, -⟩ := List.getElem?_eq_some.1 halvo
    refine ⟨index, alvo, { alvo with ativo := false, data_desativacao := some agora }, halvo,
      ?_, List.getElem?_set_self hlt, ?_, rfl, rfl, rfl, rfl, rfl, rfl, rfl, rfl,
      List.length_set _ _ _, ?_⟩
    · unfold ClienteJs.buscarClientePorCpf
      rw [if_neg hb, find?_of_findIndex hi, halvo]
    · unfold ClienteJs.buscarClientePorCpf
      rw [if_neg hb]
      exact find?_set_of_findIndex _ hi (by simpa using hc)
    · intro k hk
      exact List.getElem?_set_ne (Ne.symm hk)

/-- Witness of C16: Bia is deactivated in the store of Ana and Bia. -/
theorem desativar_transicao_pura_witness :
    (∀ r ∈ lojaExemplo, r.cpf ≠ "") ∧
    (ClienteJs.removerCliente "2024-02-01" lojaExemplo "987.654.321-00" false).1 = true ∧
    ∃ index antes depois,
      lojaExemplo[index]? = some antes ∧
      ClienteJs.buscarClientePorCpf lojaExemplo "987.654.321-00" = some antes ∧
      (ClienteJs.removerCliente "2024-02-01" lojaExemplo "987.654.321-00" false).2[index]? =
        some depois ∧
      ClienteJs.buscarClientePorCpf
        (ClienteJs.removerCliente "2024-02-01" lojaExemplo "987.654.321-00" false).2
        "987.654.321-00" = some depois ∧
      depois.ativo = false ∧ depois.data_desativacao = some "2024-02-01" ∧
      depois.id = antes.id ∧ depois.nome = antes.nome ∧ depois.cpf = antes.cpf ∧
      depois.email = antes.email ∧ depois.telefone = antes.telefone ∧
      depois.data_cadastro = antes.data_cadastro ∧
      (ClienteJs.removerCliente "2024-02-01" lojaExemplo "987.654.321-00" false).2.length =
        lojaExemplo.length ∧
      ∀ k : Nat, k ≠ index →
        (ClienteJs.removerCliente "2024-02-01" lojaExemplo "987.654.321-00" false).2[k]? =
          lojaExemplo[k]? :=
  ⟨by decide, by decide,
    desativar_transicao_pura "2024-02-01" lojaExemplo "987.654.321-00" (by decide) (by decide)⟩

/-- C17: in a store where no two records share a cpf, when the hard delete
`removerCliente(cpf, true)` returns true, `buscarClientePorCpf(cpf)` then returns
null, the store is the old one with one record erased (the others unchanged and in
order), and if `validarCPF(cpf)` holds, `adicionarCliente(nome, cpf)` with a
non-blank name and no email returns true. -/
theorem exclusao_libera_cpf (agora : String) (clientes : List Cliente) (cpf : String)
    (hnd : (clientes.map (fun c => c.cpf)).Nodup)
    (h : (ClienteJs.removerCliente agora clientes cpf true).1 = true) :
    ClienteJs.buscarClientePorCpf (ClienteJs.removerCliente agora clientes cpf true).2 cpf =
      none ∧
    (∃ index alvo, clientes[index]? = some alvo ∧ alvo.cpf = ClienteJs.formatarCPF cpf ∧
      (ClienteJs.removerCliente agora clientes cpf true).2 = clientes.eraseIdx index) ∧
    (ClienteJs.validarCPF cpf = true → ∀ agora2 nome telefone, trim nome ≠ "" →
      (ClienteJs.adicionarCliente agora2 (ClienteJs.removerCliente agora clientes cpf true).2
        nome cpf "" telefone).1 = true) := by
  rcases removerCliente_cases agora clientes cpf true with ⟨-, e⟩ | ⟨index, alvo, hi, halvo, hc, e⟩
  · rw [e] at h; exact absurd h (by simp)
  · rw [e]
    simp only [if_true]
    have hfree : ∀ r ∈ clientes.eraseIdx index, r.cpf ≠ ClienteJs.formatarCPF cpf := by
      intro r hr hrc
      obtain ⟨i, hik, hir⟩ := List.mem_eraseIdx_iff_getElem?.1 hr
      have h1 : (clientes.map (fun c => c.cpf))[i]? = some (ClienteJs.formatarCPF cpf) := by
        simp [hir, hrc]
      have h2 : (clientes.map (fun c => c.cpf))[index]? = some (ClienteJs.formatarCPF cpf) := by
        simp [halvo, hc]
      obtain ⟨hi1, -⟩ := List.getElem?_eq_some.1 h1
      obtain ⟨hi2, -⟩ := List.getElem?_eq_some.1 h2
      rw [List.nodup_iff_getElem?_ne_getElem?] at hnd
      rcases Nat.lt_or_gt_of_ne hik with hlt | hgt
      · exact hnd i index hlt hi2 (by rw [h1, h2])
      · exact hnd index i hgt hi1 (by rw [h1, h2])
    refine ⟨?_, ⟨index, alvo, halvo, hc, rfl⟩, ?_⟩
    · unfold ClienteJs.buscarClientePorCpf
      split_ifs
      · rfl
      · rw [List.find?_eq_none]
        intro r hr
        simpa using hfree r hr
    · intro hv agora2 nome telefone hnome
      rcases adicionarCliente_cases agora2 (clientes.eraseIdx index) nome cpf "" telefone with
        ⟨-, r⟩ | ⟨e2, -⟩
      · rcases r with r | r | r | ⟨x, hx, hx2⟩ | ⟨r1, -⟩
        · exact absurd r hnome
        · exact absurd r (trim_ne_vazio_of_validarCPF cpf hv)
        · rw [hv] at r; cases r
        · exact absurd hx2 (hfree x hx)
        · exact absurd trim_empty r1
      · rw [e2]

/-- Witness of C17: Ana is removed completely from the store of Ana and Bia. -/
theorem exclusao_libera_cpf_witness :
    (lojaExemplo.map (fun c => c.cpf)).Nodup ∧
    (ClienteJs.removerCliente "2024-02-01" lojaExemplo "12345678909" true).1 = true ∧
    ClienteJs.buscarClientePorCpf
      (ClienteJs.removerCliente "2024-02-01" lojaExemplo "12345678909" true).2
      "12345678909" = none ∧
    (ClienteJs.adicionarCliente "2024-02-02"
      (ClienteJs.removerCliente "2024-02-01" lojaExemplo "12345678909" true).2
      "Ana" "12345678909" "" "").1 = true :=
  ⟨by decide, by decide,
    (exclusao_libera_cpf "2024-02-01" lojaExemplo "12345678909" (by decide) (by decide)).1,
    (exclusao_libera_cpf "2024-02-01" lojaExemplo "12345678909" (by decide) (by decide)).2.2
      (by decide) "2024-02-02" "Ana" "" (by decide)⟩

/-! ## The email test of `crudUpdate.js` -/

theorem semArroba_append {x y : List ClasseEmail} (hx : SemArroba x) (hy : SemArroba y) :
    SemArroba (x ++ y) := by
  intro c hc
  rcases List.mem_append.1 hc with h | h
  · exact hx c h
  · exact hy c h

theorem semArroba_flatten {L : List (List ClasseEmail)} (h : ∀ y ∈ L, SemArroba y) :
    SemArroba L.flatten := by
  intro c hc
  obtain ⟨y, hy, hcy⟩ := List.mem_flatten.1 hc
  exact h y hy c hcy

theorem semArroba_nil : SemArroba [] := by
  intro c hc
  cases hc

theorem semArroba_palavra : SemArroba [ClasseEmail.palavra] := by
  intro c hc
  rw [List.mem_singleton] at hc
  exact Or.inl hc

theorem mem_char_iff (a : ClasseEmail) (x : List ClasseEmail) :
    x ∈ (RegularExpression.char a).matches' ↔ x = [a] := by
  rw [RegularExpression.matches'_char]
  exact Set.mem_singleton_iff

theorem rxPalavras_mem {x : List ClasseEmail} (h : x ∈ rxPalavras.matches') :
    x ≠ [] ∧ SemArroba x := by
  unfold rxPalavras at h
  rw [RegularExpression.matches'_mul, RegularExpression.matches'_star, Language.mem_mul] at h
  obtain ⟨a, ha, b, hb, rfl⟩ := h
  rw [mem_char_iff] at ha
  rw [Language.mem_kstar] at hb
  obtain ⟨L, rfl, hL⟩ := hb
  subst ha
  refine ⟨by simp, semArroba_append semArroba_palavra (semArroba_flatten ?_)⟩
  intro y hy
  have := hL y hy
  rw [mem_char_iff] at this
  rw [this]
  exact semArroba_palavra

theorem rxNome_mem {x : List ClasseEmail} (h : x ∈ rxNome.matches') :
    x ≠ [] ∧ SemArroba x := by
  unfold rxNome at h
  rw [RegularExpression.matches'_mul, RegularExpression.matches'_star, Language.mem_mul] at h
  obtain ⟨a, ha, b, hb, rfl⟩ := h
  obtain ⟨ha1, ha2⟩ := rxPalavras_mem ha
  rw [Language.mem_kstar] at hb
  obtain ⟨L, rfl, hL⟩ := hb
  refine ⟨by simp [ha1], semArroba_append ha2 (semArroba_flatten ?_)⟩
  intro y hy
  have h1 := hL y hy
  rw [RegularExpression.matches'_mul, Language.mem_mul] at h1
  obtain ⟨u, hu, v, hv, rfl⟩ := h1
  refine semArroba_append ?_ (rxPalavras_mem hv).2
  rw [RegularExpression.matches'_add, RegularExpression.matches'_add, Language.mem_add,
    Language.mem_add, mem_char_iff, mem_char_iff, RegularExpression.matches'_epsilon,
    Language.mem_one] at hu
  rcases hu with (hu | hu) | hu
  · rw [hu]
    intro c hc
    rw [List.mem_singleton] at hc
    exact Or.inr (Or.inl hc)
  · rw [hu]
    intro c hc
    rw [List.mem_singleton] at hc
    exact Or.inr (Or.inr hc)
  · rw [hu]
    exact semArroba_nil

theorem rxSufixo_mem {x : List ClasseEmail} (h : x ∈ rxSufixo.matches') :
    ∃ y, x = ClasseEmail.ponto :: y ∧ y ≠ [] ∧ SemArroba y := by
  unfold rxSufixo at h
  simp only [RegularExpression.matches'_mul, RegularExpression.matches'_add,
    RegularExpression.matches'_epsilon, Language.mem_mul, Language.mem_add, mem_char_iff,
    Language.mem_one] at h
  obtain ⟨a, rfl, b, ⟨c, rfl, d, ⟨e, rfl, f, hf, rfl⟩, rfl⟩, rfl⟩ := h
  refine ⟨_, rfl, by simp, ?_⟩
  rcases hf with rfl | rfl
  · intro c hc
    have hc2 : c ∈ [ClasseEmail.palavra, ClasseEmail.palavra, ClasseEmail.palavra] := hc
    simp only [List.mem_cons, List.mem_singleton, List.not_mem_nil, or_false, or_self] at hc2
    exact Or.inl hc2
  · intro c hc
    have hc2 : c ∈ [ClasseEmail.palavra, ClasseEmail.palavra] := hc
    simp only [List.mem_cons, List.mem_singleton, List.not_mem_nil, or_false, or_self] at hc2
    exact Or.inl hc2

theorem semArroba_ponto_cons {y : List ClasseEmail} (h : SemArroba y) :
    SemArroba (ClasseEmail.ponto :: y) := by
  intro c hc
  rcases List.mem_cons.1 hc with rfl | hc
  · exact Or.inr (Or.inl rfl)
  · exact h c hc

/-- A list of classes accepted by the email regex of `crudUpdate.js` has the shape
run, `@`, run, `.`, run, with non-empty runs free of `@`. -/
theorem rxEmailCrud_mem {x : List ClasseEmail} (h : x ∈ rxEmailCrud.matches') :
    ∃ loc a b, x = loc ++ ClasseEmail.arroba :: (a ++ ClasseEmail.ponto :: b) ∧
      loc ≠ [] ∧ a ≠ [] ∧ b ≠ [] ∧ SemArroba loc ∧ SemArroba a ∧ SemArroba b := by
  unfold rxEmailCrud at h
  simp only [RegularExpression.matches'_mul, RegularExpression.matches'_star,
    Language.mem_mul, mem_char_iff] at h
  obtain ⟨loc, hloc, r1, ⟨at1, rfl, r2, ⟨a, ha, r3, ⟨g, hg, t, ht, rfl⟩, rfl⟩, rfl⟩, rfl⟩ := h
  obtain ⟨y, rfl, hy1, hy2⟩ := rxSufixo_mem hg
  rw [Language.mem_kstar] at ht
  obtain ⟨L, rfl, hL⟩ := ht
  have hT : SemArroba L.flatten := by
    apply semArroba_flatten
    intro z hz
    obtain ⟨w, rfl, -, hw⟩ := rxSufixo_mem (hL z hz)
    exact semArroba_ponto_cons hw
  refine ⟨loc, a, y ++ L.flatten, by simp, (rxNome_mem hloc).1, (rxNome_mem ha).1, by simp [hy1],
    (rxNome_mem hloc).2, (rxNome_mem ha).2, semArroba_append hy2 hT⟩

theorem ehPalavra_props (c : Char) (h : ehPalavra c = true) :
    ehEspaco c = false ∧ c ≠ '@' := by
  have hn : (65 ≤ c.toNat ∧ c.toNat ≤ 90) ∨ (97 ≤ c.toNat ∧ c.toNat ≤ 122) ∨
      (48 ≤ c.toNat ∧ c.toNat ≤ 57) ∨ c.toNat = 95 := by
    unfold ehPalavra at h
    simp only [Bool.or_eq_true, Bool.and_eq_true, decide_eq_true_eq, beq_iff_eq] at h
    tauto
  constructor
  · unfold ehEspaco
    simp only [Bool.or_eq_false_iff, beq_eq_false_iff_ne, ne_eq, Bool.and_eq_false_imp,
      decide_eq_true_eq, decide_eq_false_iff_not]
    omega
  · intro hc
    rw [hc] at hn
    revert hn
    decide

theorem classificar_props (c : Char)
    (h : classificar c = ClasseEmail.palavra ∨ classificar c = ClasseEmail.ponto ∨
      classificar c = ClasseEmail.hifen) :
    ehEspaco c = false ∧ c ≠ '@' := by
  unfold classificar at h
  by_cases h1 : ehPalavra c = true
  · exact ehPalavra_props c h1
  · rw [if_neg h1] at h
    by_cases h2 : c = '.'
    · subst h2
      exact ⟨by decide, by decide⟩
    · rw [if_neg h2] at h
      by_cases h3 : c = '-'
      · subst h3
        exact ⟨by decide, by decide⟩
      · rw [if_neg h3] at h
        by_cases h4 : c = '@'
        · rw [if_pos h4] at h
          simp at h
        · rw [if_neg h4] at h
          simp at h

theorem classificar_arroba (c : Char) (h : classificar c = ClasseEmail.arroba) : c = '@' := by
  unfold classificar at h
  by_contra h4
  split_ifs at h

theorem classificar_ponto (c : Char) (h : classificar c = ClasseEmail.ponto) : c = '.' := by
  unfold classificar at h
  by_contra h4
  split_ifs at h

theorem semArroba_map {l : List Char} (h : SemArroba (l.map classificar)) :
    ∀ c ∈ l, ehEspaco c = false ∧ c ≠ '@' := by
  intro c hc
  exact classificar_props c (h _ (List.mem_map_of_mem _ hc))

theorem trim_eq_self (s : String) (h : ∀ c ∈ s.data, ehEspaco c = false) : trim s = s := by
  have h1 : s.data.dropWhile ehEspaco = s.data := by
    rw [List.dropWhile_eq_self_iff]
    intro hl
    rw [h _ (List.get_mem _ _ _)]
    simp
  have h2 : s.data.rdropWhile ehEspaco = s.data := by
    rw [List.rdropWhile_eq_self_iff]
    intro hl
    rw [h _ (List.getLast_mem hl)]
    simp
  unfold trim
  rw [h1, h2]

/-- Every string accepted by the email test of `crudUpdate.js` has the shape
`local@domain.tld` of the email test of `cliente.js` and holds no whitespace. -/
theorem formaEmail_of_emailRegexCrudTest (e : String) (h : emailRegexCrudTest e = true) :
    FormaEmail e ∧ ∀ c ∈ e.data, ehEspaco c = false := by
  unfold emailRegexCrudTest at h
  rw [RegularExpression.rmatch_iff_matches'] at h
  obtain ⟨loc, a, b, hx, h1, h2, h3, s1, s2, s3⟩ := rxEmailCrud_mem h
  rw [List.map_eq_append_iff] at hx
  obtain ⟨l1, r1, he, rfl, hx⟩ := hx
  rw [List.map_eq_cons_iff] at hx
  obtain ⟨c1, r2, rfl, hc1, hx⟩ := hx
  rw [List.map_eq_append_iff] at hx
  obtain ⟨l2, r3, rfl, rfl, hx⟩ := hx
  rw [List.map_eq_cons_iff] at hx
  obtain ⟨c2, l3, rfl, hc2, rfl⟩ := hx
  have e1 := classificar_arroba c1 hc1
  have e2 := classificar_ponto c2 hc2
  subst e1
  subst e2
  have p1 := semArroba_map s1
  have p2 := semArroba_map s2
  have p3 := semArroba_map s3
  constructor
  · refine ⟨l1, l2, l3, he, ?_, ?_, ?_, ?_⟩
    · intro hn; apply h1; rw [hn]; rfl
    · intro hn; apply h2; rw [hn]; rfl
    · intro hn; apply h3; rw [hn]; rfl
    · intro c hc
      simp only [List.append_assoc, List.mem_append] at hc
      rcases hc with hc | hc | hc
      · exact p1 c hc
      · exact p2 c hc
      · exact p3 c hc
  · intro c hc
    rw [he] at hc
    simp only [List.mem_append, List.mem_cons] at hc
    rcases hc with hc | rfl | hc | rfl | hc
    · exact (p1 c hc).1
    · decide
    · exact (p2 c hc).1
    · decide
    · exact (p3 c hc).1

/-- C20, counterexample: `"a@b.c"` is non-empty after trim and passes the email test
of `adicionarCliente` in `cliente.js`, but fails the email test of
`atualizarClienteJSON` in `crudUpdate.js`, whose regex wants a last label of two or
three word characters; the create call succeeds and the update call is refused. -/
theorem email_crud_difere_de_cliente :
    trim "a@b.c" ≠ "" ∧ emailRegexTest (trim "a@b.c") = true ∧
    emailRegexCrudTest "a@b.c" = false ∧
    (ClienteJs.adicionarCliente "2024-01-01" [] "Ana" "12345678909" "a@b.c" "").1 = true ∧
    (CrudJs.atualizarClienteJSON "2024-02-01" lojaExemplo "1"
      (NovosDadosJSON.mk none none (some "a@b.c") none)).1 = false := by
  decide

/-- C20, amended: the email test of `atualizarClienteJSON` is stricter than the one
of `adicionarCliente`: every string that the update test accepts is non-empty after
trim and is accepted by the create test (applied to its trimmed form). -/
theorem email_crud_implica_cliente (e : String) (h : emailRegexCrudTest e = true) :
    trim e ≠ "" ∧ emailRegexTest (trim e) = true := by
  obtain ⟨hf, hs⟩ := formaEmail_of_emailRegexCrudTest e h
  rw [trim_eq_self e hs]
  refine ⟨?_, (emailRegexTest_iff e).2 hf⟩
  intro hn
  obtain ⟨loc, a, b, hd, -⟩ := hf
  rw [hn] at hd
  have := congrArg List.length hd
  simp at this
  omega

/-- Witness of C20 amended: an address accepted by both tests. -/
theorem email_crud_implica_cliente_witness :
    emailRegexCrudTest "bia@mail.com" = true ∧
    trim "bia@mail.com" ≠ "" ∧ emailRegexTest (trim "bia@mail.com") = true :=
  ⟨by decide, email_crud_implica_cliente "bia@mail.com" (by decide)⟩

/-! ## `atualizarClienteJSON` in closed form -/

theorem localizarCliente_some {clientes : List Cliente} {identificador : String} {index : Nat}
    (h : CrudJs.localizarCliente clientes identificador = some index) :
    ∃ alvo, clientes[index]? = some alvo := by
  unfold CrudJs.localizarCliente at h
  split_ifs at h
  · obtain ⟨a, ha, -⟩ := findIndex_some h
    exact ⟨a, ha⟩
  · obtain ⟨a, ha, -⟩ := findIndex_some h
    exact ⟨a, ha⟩

/-- The outcomes of `atualizarClienteJSON`: no record for the identifier, a refusal,
or the target replaced by `registroAtualizadoJSON`. -/
theorem atualizarClienteJSON_cases (agora : String) (clientes : List Cliente)
    (identificador : String) (novosDados : NovosDadosJSON) :
    (CrudJs.localizarCliente clientes identificador = none ∧
      CrudJs.atualizarClienteJSON agora clientes identificador novosDados = (false, clientes)) ∨
    (∃ index alvo,
      CrudJs.localizarCliente clientes identificador = some index ∧
      clientes[index]? = some alvo ∧
      ((recusaJSON clientes index novosDados = true ∧
          CrudJs.atualizarClienteJSON agora clientes identificador novosDados =
            (false, clientes)) ∨
        (recusaJSON clientes index novosDados = false ∧
          CrudJs.atualizarClienteJSON agora clientes identificador novosDados =
            (true, clientes.set index (registroAtualizadoJSON agora alvo novosDados))))) := by
  unfold CrudJs.atualizarClienteJSON
  cases hf : CrudJs.localizarCliente clientes identificador with
  | none => exact Or.inl ⟨rfl, rfl⟩
  | some index =>
    right
    obtain ⟨alvo, halvo⟩ := localizarCliente_some hf
    refine ⟨index, alvo, rfl, halvo, ?_⟩
    have hg : clientes.get? index = some alvo := by simpa using halvo
    simp only [hg]
    by_cases h1 : (presente novosDados.cpf).any (fun cpf => !CrudJs.validarCPF cpf) = true
    · left
      exact ⟨by simp only [recusaJSON, h1, Bool.true_or], if_pos h1⟩
    · rw [if_neg h1]
      by_cases h2 : (presente novosDados.email).any
          (fun email => trim email != "" && !emailRegexCrudTest email) = true
      · left
        exact ⟨by simp only [recusaJSON, h2, Bool.true_or, Bool.or_true], if_pos h2⟩
      · rw [if_neg h2]
        by_cases h3 : (presente novosDados.cpf).any (fun cpf =>
            (clientes.enum.find? (fun par =>
              par.2.cpf == CrudJs.formatarCPF cpf && par.1 != index)).isSome) = true
        · left
          exact ⟨by simp only [recusaJSON, h3, Bool.or_true], if_pos h3⟩
        · rw [if_neg h3]
          right
          refine ⟨?_, ?_⟩
          · simp only [Bool.not_eq_true] at h1 h2 h3
            simp only [recusaJSON, h1, h2, h3, Bool.or_self]
          · rcases novosDados with ⟨nome, cpf, email, telefone⟩
            cases hn : presente nome <;> cases hc : presente cpf <;> cases email <;>
              cases telefone <;>
              simp only [registroAtualizadoJSON, hn, hc] <;> (try split_ifs) <;> rfl

theorem presente_vazio : presente (some "") = none := by decide

theorem presente_none : presente none = none := rfl

theorem presente_some (x : String) (h : x ≠ "") : presente (some x) = some x := by
  simp [presente, Option.filter, h]

theorem recusaJSON_sem_cpf (clientes : List Cliente) (index : Nat) (novosDados : NovosDadosJSON)
    (hcpf : presente novosDados.cpf = none)
    (hemail : ∀ e, novosDados.email = some e → trim e ≠ "" → emailRegexCrudTest e = true) :
    recusaJSON clientes index novosDados = false := by
  unfold recusaJSON
  rw [hcpf]
  simp only [Option.any_none, Bool.false_or, Bool.or_false]
  cases he : novosDados.email with
  | none => rfl
  | some e =>
    by_cases h0 : e = ""
    · rw [h0, presente_vazio]; rfl
    · rw [presente_some e h0]
      by_cases h1 : trim e = ""
      · simp [h1]
      · simp [hemail e he h1]

/-! ## Claims on `atualizarClienteJSON` -/

/-- C15, counterexample: with the patch `email: ""` (and likewise `telefone: ""`) the
call succeeds and the stored field is the empty string, not null. -/
theorem atualizarClienteJSON_vazio_nao_e_null :
    (CrudJs.atualizarClienteJSON "2024-02-01" lojaExemplo "987.654.321-00"
      (NovosDadosJSON.mk none none (some "") none)).1 = true ∧
    (CrudJs.atualizarClienteJSON "2024-02-01" lojaExemplo "987.654.321-00"
      (NovosDadosJSON.mk none none (some "") none)).2.map (fun c => c.email) =
        [none, some ""] ∧
    (CrudJs.atualizarClienteJSON "2024-02-01" lojaExemplo "987.654.321-00"
      (NovosDadosJSON.mk none none none (some ""))).1 = true ∧
    (CrudJs.atualizarClienteJSON "2024-02-01" lojaExemplo "987.654.321-00"
      (NovosDadosJSON.mk none none none (some ""))).2.map (fun c => c.telefone) =
        [none, some ""] := by
  decide

/-- C15, amended: with the target record in the store, a patch whose email
(respectively telefone) is the empty string leaves, when the call succeeds, the
empty string in the stored field; the call succeeds when the patch has no cpf
(and, for telefone, no email). -/
theorem atualizarClienteJSON_vazio_grava_vazio (agora : String) (clientes : List Cliente)
    (identificador : String) (novosDados : NovosDadosJSON) (index : Nat) (alvo : Cliente)
    (hloc : CrudJs.localizarCliente clientes identificador = some index)
    (halvo : clientes[index]? = some alvo) :
    (novosDados.email = some "" →
      (CrudJs.atualizarClienteJSON agora clientes identificador novosDados).1 = true →
      ∃ novo, (CrudJs.atualizarClienteJSON agora clientes identificador novosDados).2[index]? =
          some novo ∧ novo.email = some "") ∧
    (novosDados.telefone = some "" →
      (CrudJs.atualizarClienteJSON agora clientes identificador novosDados).1 = true →
      ∃ novo, (CrudJs.atualizarClienteJSON agora clientes identificador novosDados).2[index]? =
          some novo ∧ novo.telefone = some "") ∧
    (novosDados.email = some "" → novosDados.cpf = none →
      (CrudJs.atualizarClienteJSON agora clientes identificador novosDados).1 = true) ∧
    (novosDados.telefone = some "" → novosDados.cpf = none → novosDados.email = none →
      (CrudJs.atualizarClienteJSON agora clientes identificador novosDados).1 = true) := by
  obtain ⟨hlt, -⟩ := List.getElem?_eq_some.1 halvo
  have key : (CrudJs.atualizarClienteJSON agora clientes identificador novosDados =
        (false, clientes) ∧ recusaJSON clientes index novosDados = true) ∨
      (CrudJs.atualizarClienteJSON agora clientes identificador novosDados =
        (true, clientes.set index (registroAtualizadoJSON agora alvo novosDados)) ∧
        recusaJSON clientes index novosDados = false) := by
    rcases atualizarClienteJSON_cases agora clientes identificador novosDados with
      ⟨hn, -⟩ | ⟨i2, a2, hi2, ha2, ⟨hr, e⟩ | ⟨hr, e⟩⟩
    · rw [hloc] at hn; cases hn
    · rw [hloc] at hi2; cases hi2
      exact Or.inl ⟨e, hr⟩
    · rw [hloc] at hi2; cases hi2
      rw [halvo] at ha2; cases ha2
      exact Or.inr ⟨e, hr⟩
  refine ⟨?_, ?_, ?_, ?_⟩
  · intro he hok
    rcases key with ⟨e, -⟩ | ⟨e, -⟩
    · rw [e] at hok; exact absurd hok (by simp)
    · rw [e]
      refine ⟨_, List.getElem?_set_self hlt, ?_⟩
      simp only [registroAtualizadoJSON, he, trim_empty]
  · intro he hok
    rcases key with ⟨e, -⟩ | ⟨e, -⟩
    · rw [e] at hok; exact absurd hok (by simp)
    · rw [e]
      refine ⟨_, List.getElem?_set_self hlt, ?_⟩
      simp only [registroAtualizadoJSON, he, trim_empty]
  · intro he hc
    have hr := recusaJSON_sem_cpf clientes index novosDados (by rw [hc]; rfl) (by
      intro e he2 ht
      rw [he] at he2
      cases he2
      exact absurd trim_empty ht)
    rcases key with ⟨-, hr2⟩ | ⟨e, -⟩
    · rw [hr] at hr2; cases hr2
    · rw [e]
  · intro _ hc he
    have hr := recusaJSON_sem_cpf clientes index novosDados (by rw [hc]; rfl) (by
      intro e he2 ht
      rw [he] at he2
      cases he2)
    rcases key with ⟨-, hr2⟩ | ⟨e, -⟩
    · rw [hr] at hr2; cases hr2
    · rw [e]

/-- Witness of C15 amended: Bia receives the patch `email: ""`. -/
theorem atualizarClienteJSON_vazio_grava_vazio_witness :
    CrudJs.localizarCliente lojaExemplo "987.654.321-00" = some 1 ∧
    lojaExemplo[1]? =
      some (Cliente.mk 2 "Bia" "987.654.321-00" (some "bia@mail.com") none "2024-01-02" true
        none none) ∧
    (CrudJs.atualizarClienteJSON "2024-02-01" lojaExemplo "987.654.321-00"
      (NovosDadosJSON.mk none none (some "") none)).1 = true :=
  ⟨by decide, rfl,
    (atualizarClienteJSON_vazio_grava_vazio "2024-02-01" lojaExemplo "987.654.321-00"
      (NovosDadosJSON.mk none none (some "") none) 1
      (Cliente.mk 2 "Bia" "987.654.321-00" (some "bia@mail.com") none "2024-01-02" true
        none none) (by decide) rfl).2.2.1 rfl rfl⟩

/-- C18, counterexample: the identifier `"12345678909"` has the canonical form of
Ana's cpf, but it holds no `.`, so it is read as the id 12345678909, no record is
found and the call returns false. -/
theorem atualizarClienteJSON_sem_ponto_nao_resolve :
    (lojaExemplo.map (fun c => c.cpf))[0]? = some (CrudJs.formatarCPF "12345678909") ∧
    CrudJs.atualizarClienteJSON "2024-02-01" lojaExemplo "12345678909"
      (NovosDadosJSON.mk none none none none) = (false, lojaExemplo) := by
  decide

/-- C18, amended: for an identifier that contains a `.` and whose canonical form
`formatarCPF(identifier)` is the cpf of a stored record, `atualizarClienteJSON
(identifier, {})` returns true and replaces the first record with that cpf by the
same record with `data_atualizacao` stamped, leaving every other record as it was;
an identifier without a `.` is read as an id. -/
theorem atualizarClienteJSON_resolve_com_ponto (agora : String) (clientes : List Cliente)
    (identificador : String) (hp : '.' ∈ identificador.data) (r : Cliente)
    (hr : r ∈ clientes) (hc : r.cpf = CrudJs.formatarCPF identificador) :
    ∃ index alvo,
      clientes[index]? = some alvo ∧ alvo.cpf = CrudJs.formatarCPF identificador ∧
      (∀ j b, j < index → clientes[j]? = some b →
        b.cpf ≠ CrudJs.formatarCPF identificador) ∧
      CrudJs.atualizarClienteJSON agora clientes identificador
          (NovosDadosJSON.mk none none none none) =
        (true, clientes.set index { alvo with data_atualizacao := some agora }) := by
  have hl : CrudJs.localizarCliente clientes identificador =
      findIndex (fun cliente => cliente.cpf == CrudJs.formatarCPF identificador) clientes := by
    unfold CrudJs.localizarCliente
    rw [if_pos hp]
  obtain ⟨index, hi⟩ := findIndex_of_mem (p := fun cliente : Cliente =>
    cliente.cpf == CrudJs.formatarCPF identificador) hr (by simpa using hc)
  obtain ⟨alvo, halvo, hpa, hmin⟩ := findIndex_some hi
  refine ⟨index, alvo, halvo, by simpa using hpa, ?_, ?_⟩
  · intro j b hj hb
    simpa using hmin j b hj hb
  · rcases atualizarClienteJSON_cases agora clientes identificador
        (NovosDadosJSON.mk none none none none) with
      ⟨hn, -⟩ | ⟨i2, a2, hi2, ha2, ⟨hrec, -⟩ | ⟨-, e⟩⟩
    · rw [hl, hi] at hn; cases hn
    · exact absurd hrec (by simp [recusaJSON, presente])
    · rw [hl, hi] at hi2; cases hi2
      rw [halvo] at ha2; cases ha2
      rw [e]
      rfl

/-- Witness of C18 amended: Ana found by her punctuated cpf. -/
theorem atualizarClienteJSON_resolve_com_ponto_witness :
    '.' ∈ "123.456.789-09".data ∧
    (Cliente.mk 1 "Ana" "123.456.789-09" none none "2024-01-01" true none none) ∈ lojaExemplo ∧
    "123.456.789-09" = CrudJs.formatarCPF "123.456.789-09" ∧
    ∃ index alvo,
      lojaExemplo[index]? = some alvo ∧ alvo.cpf = CrudJs.formatarCPF "123.456.789-09" ∧
      (∀ j b, j < index → lojaExemplo[j]? = some b →
        b.cpf ≠ CrudJs.formatarCPF "123.456.789-09") ∧
      CrudJs.atualizarClienteJSON "2024-02-01" lojaExemplo "123.456.789-09"
          (NovosDadosJSON.mk none none none none) =
        (true, lojaExemplo.set index { alvo with data_atualizacao := some "2024-02-01" }) :=
  ⟨by decide, by decide, by decide,
    atualizarClienteJSON_resolve_com_ponto "2024-02-01" lojaExemplo "123.456.789-09" (by decide)
      (Cliente.mk 1 "Ana" "123.456.789-09" none none "2024-01-01" true none none) (by decide)
      (by decide)⟩

theorem crudJs_validarCPF_ne_vazio (cpf : String) (h : CrudJs.validarCPF cpf = true) :
    cpf ≠ "" := by
  intro hn
  rw [hn] at h
  revert h
  decide

/-- C19, counterexample: (a) the patch `cpf: ""` fails `validarCPF`, yet the call
returns true because an empty cpf is skipped; (b) a patch whose cpf is valid and
canonicalizes to the target's own cpf is refused when its email fails the email
test; (c) and it is refused when a second record of the file holds the same cpf. -/
theorem atualizarClienteJSON_cpf_contraexemplos :
    (CrudJs.validarCPF "" = false ∧
      (CrudJs.atualizarClienteJSON "2024-02-01" lojaExemplo "1"
        (NovosDadosJSON.mk none (some "") none none)).1 = true) ∧
    (CrudJs.validarCPF "12345678909" = true ∧
      (lojaExemplo.map (fun c => c.cpf))[0]? = some (CrudJs.formatarCPF "12345678909") ∧
      CrudJs.localizarCliente lojaExemplo "1" = some 0 ∧
      (CrudJs.atualizarClienteJSON "2024-02-01" lojaExemplo "1"
        (NovosDadosJSON.mk none (some "12345678909") (some "x") none)).1 = false) ∧
    (CrudJs.localizarCliente lojaDuplicada "1" = some 0 ∧
      (lojaDuplicada.map (fun c => c.cpf))[0]? = some (CrudJs.formatarCPF "12345678909") ∧
      (CrudJs.atualizarClienteJSON "2024-02-01" lojaDuplicada "1"
        (NovosDadosJSON.mk none (some "12345678909") none none)).1 = false) := by
  decide

/-- C19, amended: in `atualizarClienteJSON`, with the target record resolved, a patch
whose cpf is valid and canonicalizes to the target's own cpf succeeds and keeps that
cpf, provided no other record holds it and the patch's email, when non-empty after
trim, passes the email test; a patch whose cpf is valid and canonicalizes to the cpf
of a record at another position returns false and leaves the store unchanged; a
patch whose cpf is a non-empty string that fails `validarCPF` returns false and
leaves the store unchanged. -/
theorem atualizarClienteJSON_cpf_entre_outros (agora : String) (clientes : List Cliente)
    (identificador : String) (novosDados : NovosDadosJSON) (index : Nat) (alvo : Cliente)
    (cpf : String)
    (hloc : CrudJs.localizarCliente clientes identificador = some index)
    (halvo : clientes[index]? = some alvo) (hcpf : novosDados.cpf = some cpf) :
    (CrudJs.validarCPF cpf = true → CrudJs.formatarCPF cpf = alvo.cpf →
      (∀ j b, j ≠ index → clientes[j]? = some b → b.cpf ≠ alvo.cpf) →
      (∀ e, novosDados.email = some e → trim e ≠ "" → emailRegexCrudTest e = true) →
      (CrudJs.atualizarClienteJSON agora clientes identificador novosDados).1 = true ∧
      ∃ novo, (CrudJs.atualizarClienteJSON agora clientes identificador novosDados).2[index]? =
          some novo ∧ novo.cpf = alvo.cpf) ∧
    (CrudJs.validarCPF cpf = true →
      (∃ j b, j ≠ index ∧ clientes[j]? = some b ∧ b.cpf = CrudJs.formatarCPF cpf) →
      CrudJs.atualizarClienteJSON agora clientes identificador novosDados =
        (false, clientes)) ∧
    (cpf ≠ "" → CrudJs.validarCPF cpf = false →
      CrudJs.atualizarClienteJSON agora clientes identificador novosDados =
        (false, clientes)) := by
  obtain ⟨hlt, -⟩ := List.getElem?_eq_some.1 halvo
  have key : (CrudJs.atualizarClienteJSON agora clientes identificador novosDados =
        (false, clientes) ∧ recusaJSON clientes index novosDados = true) ∨
      (CrudJs.atualizarClienteJSON agora clientes identificador novosDados =
        (true, clientes.set index (registroAtualizadoJSON agora alvo novosDados)) ∧
        recusaJSON clientes index novosDados = false) := by
    rcases atualizarClienteJSON_cases agora clientes identificador novosDados with
      ⟨hn, -⟩ | ⟨i2, a2, hi2, ha2, ⟨hr, e⟩ | ⟨hr, e⟩⟩
    · rw [hloc] at hn; cases hn
    · rw [hloc] at hi2; cases hi2
      exact Or.inl ⟨e, hr⟩
    · rw [hloc] at hi2; cases hi2
      rw [halvo] at ha2; cases ha2
      exact Or.inr ⟨e, hr⟩
  refine ⟨?_, ?_, ?_⟩
  · intro hv hown hoth hem
    have hne := crudJs_validarCPF_ne_vazio cpf hv
    have hpres : presente novosDados.cpf = some cpf := by rw [hcpf]; exact presente_some cpf hne
    have hrec : recusaJSON clientes index novosDados = false := by
      unfold recusaJSON
      rw [hpres]
      have h3 : (clientes.enum.find? (fun par =>
          par.2.cpf == CrudJs.formatarCPF cpf && par.1 != index)) = none := by
        rw [List.find?_eq_none]
        rintro ⟨j, b⟩ hjb
        rw [List.mk_mem_enum_iff_getElem?] at hjb
        by_cases hj : j = index
        · simp [hj]
        · have := hoth j b hj hjb
          rw [← hown] at this
          simp [this]
      have h2 : (presente novosDados.email).any
          (fun email => trim email != "" && !emailRegexCrudTest email) = false := by
        cases he : novosDados.email with
        | none => rfl
        | some e =>
          by_cases h0 : e = ""
          · rw [h0, presente_vazio]; rfl
          · rw [presente_some e h0]
            by_cases h1 : trim e = ""
            · simp [h1]
            · simp [hem e he h1]
      simp only [Option.any_some, hv, h2, h3, Bool.not_true, Option.isSome_none, Bool.or_self]
    rcases key with ⟨-, hr2⟩ | ⟨e, -⟩
    · rw [hrec] at hr2; cases hr2
    · rw [e]
      refine ⟨rfl, _, List.getElem?_set_self hlt, ?_⟩
      simp only [registroAtualizadoJSON, hpres, hown]
  · intro hv hex
    have hne := crudJs_validarCPF_ne_vazio cpf hv
    have hpres : presente novosDados.cpf = some cpf := by rw [hcpf]; exact presente_some cpf hne
    have hrec : recusaJSON clientes index novosDados = true := by
      unfold recusaJSON
      rw [hpres]
      have h3 : (clientes.enum.find? (fun par =>
          par.2.cpf == CrudJs.formatarCPF cpf && par.1 != index)).isSome = true := by
        rw [List.find?_isSome]
        obtain ⟨j, b, hj, hb, hbc⟩ := hex
        exact ⟨(j, b), List.mk_mem_enum_iff_getElem?.2 hb, by simp [hbc, hj]⟩
      simp only [Option.any_some, h3, Bool.or_true]
    rcases key with ⟨e, -⟩ | ⟨-, hr2⟩
    · exact e
    · rw [hrec] at hr2; cases hr2
  · intro hne hv
    have hpres : presente novosDados.cpf = some cpf := by rw [hcpf]; exact presente_some cpf hne
    have hrec : recusaJSON clientes index novosDados = true := by
      unfold recusaJSON
      rw [hpres]
      simp only [Option.any_some, hv, Bool.not_false, Bool.true_or]
    rcases key with ⟨e, -⟩ | ⟨-, hr2⟩
    · exact e
    · rw [hrec] at hr2; cases hr2

/-- Witness of C19 amended: Ana, found by the id `"1"`, receives her own cpf
without punctuation. -/
theorem atualizarClienteJSON_cpf_entre_outros_witness :
    CrudJs.localizarCliente lojaExemplo "1" = some 0 ∧
    lojaExemplo[0]? =
      some (Cliente.mk 1 "Ana" "123.456.789-09" none none "2024-01-01" true none none) ∧
    CrudJs.validarCPF "12345678909" = true ∧
    CrudJs.formatarCPF "12345678909" = "123.456.789-09" ∧
    (CrudJs.atualizarClienteJSON "2024-02-01" lojaExemplo "1"
      (NovosDadosJSON.mk none (some "12345678909") none none)).1 = true :=
  ⟨by decide, rfl, by decide, by decide,
    ((atualizarClienteJSON_cpf_entre_outros "2024-02-01" lojaExemplo "1"
      (NovosDadosJSON.mk none (some "12345678909") none none) 0
      (Cliente.mk 1 "Ana" "123.456.789-09" none none "2024-01-01" true none none)
      "12345678909" (by decide) rfl rfl).1 (by decide) (by decide)
      (by
        intro j b hj hb
        match j, hj, hb with
        | 1, _, hb =>
          simp only [lojaExemplo, List.getElem?_cons_succ, List.getElem?_cons_zero,
            Option.some.injEq] at hb
          rw [← hb]
          decide
        | n + 2, _, hb =>
          simp [lojaExemplo] at hb)
      (by intro e he; cases he)).1⟩

/-! ## Claims on the name, on `index.js` and on the search by name -/

theorem adicionarCliente_of_ok (agora : String) (clientes : List Cliente)
    (nome cpf email telefone : String) (h1 : trim nome ≠ "")
    (h2 : ClienteJs.validarCPF cpf = true)
    (h3 : ∀ r ∈ clientes, r.cpf ≠ ClienteJs.formatarCPF cpf) (h4 : trim email = "") :
    ClienteJs.adicionarCliente agora clientes nome cpf email telefone =
      (true, clientes ++ [Cliente.mk (clientes.length + 1) (trim nome)
        (ClienteJs.formatarCPF cpf) (ouNull (trim email)) (ouNull (trim telefone)) agora true
        none none]) := by
  rcases adicionarCliente_cases agora clientes nome cpf email telefone with ⟨-, r⟩ | ⟨e, -⟩
  · rcases r with r | r | r | ⟨x, hx, hx2⟩ | ⟨r1, -⟩
    · exact absurd r h1
    · exact absurd r (trim_ne_vazio_of_validarCPF cpf h2)
    · rw [h2] at r; cases r
    · exact absurd hx2 (h3 x hx)
    · exact absurd h4 r1
  · exact e

theorem adicionarCliente_of_nome_vazio (agora : String) (clientes : List Cliente)
    (nome cpf email telefone : String) (h : trim nome = "") :
    ClienteJs.adicionarCliente agora clientes nome cpf email telefone = (false, clientes) := by
  rcases adicionarCliente_cases agora clientes nome cpf email telefone with ⟨e, -⟩ | ⟨-, r⟩
  · exact e
  · exact absurd h r.1

theorem adicionarCliente_of_cpf_invalido (agora : String) (clientes : List Cliente)
    (nome cpf email telefone : String) (h : ClienteJs.validarCPF cpf = false) :
    ClienteJs.adicionarCliente agora clientes nome cpf email telefone = (false, clientes) := by
  rcases adicionarCliente_cases agora clientes nome cpf email telefone with ⟨e, -⟩ | ⟨-, r⟩
  · exact e
  · rw [h] at r
    exact absurd r.2.2.1 (by decide)

/-- C21, counterexample: the name `"A"` has one character after trim, and
`adicionarCliente("A", "12345678909")` on the empty store returns true and stores
the record. -/
theorem adicionarCliente_nome_de_uma_letra :
    (trim "A").length < 2 ∧
    ClienteJs.adicionarCliente "2024-01-01" [] "A" "12345678909" "" "" =
      (true, [Cliente.mk 1 "A" "123.456.789-09" none none "2024-01-01" true none none]) := by
  decide

/-- C21, amended: a client name must be non-empty after trim: for every store and
every name whose trimmed form is empty, `adicionarCliente` returns false and stores
no record; a name that is non-empty after trim, whatever its length, is accepted
when the cpf is valid and not yet present and the email is empty after trim. -/
theorem adicionarCliente_nome_obrigatorio (agora : String) (clientes : List Cliente)
    (nome cpf email telefone : String) :
    (trim nome = "" →
      ClienteJs.adicionarCliente agora clientes nome cpf email telefone = (false, clientes)) ∧
    (trim nome ≠ "" → ClienteJs.validarCPF cpf = true →
      (∀ r ∈ clientes, r.cpf ≠ ClienteJs.formatarCPF cpf) → trim email = "" →
      (ClienteJs.adicionarCliente agora clientes nome cpf email telefone).1 = true) := by
  refine ⟨adicionarCliente_of_nome_vazio agora clientes nome cpf email telefone, ?_⟩
  intro h1 h2 h3 h4
  rw [adicionarCliente_of_ok agora clientes nome cpf email telefone h1 h2 h3 h4]

/-- Witness of C21 amended: a blank name with a valid cpf on the empty store. -/
theorem adicionarCliente_nome_obrigatorio_witness :
    trim "  " = "" ∧ ClienteJs.validarCPF "12345678909" = true ∧
    ClienteJs.adicionarCliente "2024-01-01" [] "  " "12345678909" "" "" = (false, []) :=
  ⟨by decide, by decide,
    (adicionarCliente_nome_obrigatorio "2024-01-01" [] "  " "12345678909" "" "").1 (by decide)⟩

/-- C22, the code at the failing input: the file holds `"123.456.789-09"` and
`adicionarClienteJSON` of `index.js` is given `"12345678909"`, the same 11 digits;
the call returns true and appends a record whose cpf is the raw `"12345678909"`,
which does not match `ddd.ddd.ddd-dd`. -/
theorem adicionarClienteJSON_cpf_sem_pontuacao :
    asciiDigitChars "123.456.789-09" = asciiDigitChars "12345678909" ∧
    IndexJs.adicionarClienteJSON "2024-01-02"
        [RegistroIndex.mk 1 "Ana" "123.456.789-09" none none "2024-01-01"]
        "Bia" "12345678909" "" "" =
      (true, [RegistroIndex.mk 1 "Ana" "123.456.789-09" none none "2024-01-01",
        RegistroIndex.mk 2 "Bia" "12345678909" (some "") (some "") "2024-01-02"]) ∧
    ehCanonico "12345678909" = false := by
  decide

theorem includes_iff (s t : String) : includes s t = true ↔ t.data <:+: s.data := by
  unfold includes
  rw [List.any_eq_true, List.infix_iff_prefix_suffix]
  constructor
  · rintro ⟨u, hu, hp⟩
    exact ⟨u, List.isPrefixOf_iff_prefix.1 hp, (List.mem_tails _ _).1 hu⟩
  · rintro ⟨u, hp, hu⟩
    exact ⟨u, (List.mem_tails _ _).2 hu, List.isPrefixOf_iff_prefix.2 hp⟩

/-- C23: `buscarClientesJSONPorNome(text)` is the order-preserving filter of the
store by the predicate "the lower-cased nome contains the lower-cased text as a
contiguous substring"; with the empty text it is the whole store. -/
theorem buscarClientesJSONPorNome_filtro (toLowerCase : String → String)
    (clientes : List Cliente) (text : String) :
    CrudJs.buscarClientesJSONPorNome toLowerCase clientes text =
        clientes.filter
          (fun c => decide ((toLowerCase text).data <:+: (toLowerCase c.nome).data)) ∧
      (toLowerCase "" = "" →
        CrudJs.buscarClientesJSONPorNome toLowerCase clientes "" = clientes) := by
  have e : ∀ txt, CrudJs.buscarClientesJSONPorNome toLowerCase clientes txt =
      clientes.filter
        (fun c => decide ((toLowerCase txt).data <:+: (toLowerCase c.nome).data)) := by
    intro txt
    unfold CrudJs.buscarClientesJSONPorNome
    apply List.filter_congr
    intro c _
    by_cases h : (toLowerCase txt).data <:+: (toLowerCase c.nome).data
    · rw [(includes_iff _ _).2 h, decide_eq_true h]
    · rw [decide_eq_false h]
      cases hi : includes (toLowerCase c.nome) (toLowerCase txt) with
      | false => rfl
      | true => exact absurd ((includes_iff _ _).1 hi) h
  refine ⟨e text, ?_⟩
  intro h0
  rw [e "", List.filter_eq_self]
  intro c _
  rw [h0]
  exact decide_eq_true List.nil_infix

/-- Witness of C23: the empty text with the ASCII lower-casing on the store of Ana
and Bia. -/
theorem buscarClientesJSONPorNome_filtro_witness :
    minusculasAscii "" = "" ∧
    CrudJs.buscarClientesJSONPorNome minusculasAscii lojaExemplo "" = lojaExemplo :=
  ⟨rfl, (buscarClientesJSONPorNome_filtro minusculasAscii lojaExemplo "").2 rfl⟩

/-! ## Claims relating the formatters, the lookup and the validator -/

theorem clienteJs_formatarCPF_onze (s : String) (d0 d1 d2 d3 d4 d5 d6 d7 d8 d9 d10 : Char)
    (h : (apenasDigitos s).data = [d0, d1, d2, d3, d4, d5, d6, d7, d8, d9, d10]) :
    ClienteJs.formatarCPF s = ⟨[d0, d1, d2, '.', d3, d4, d5, '.', d6, d7, d8, '-', d9, d10]⟩ := by
  have hall := apenasDigitos_all s
  rw [h] at hall
  have hlen : (apenasDigitos s).length = 11 := by rw [string_length_eq, h]; rfl
  rw [clienteJs_formatarCPF_def, if_pos hlen, h,
    substituirPadrao_digitos _ _ _ _ _ _ _ _ _ _ _ [] hall]

theorem trim_ne_vazio_of_digito (s : String) (h : (apenasDigitos s).data ≠ []) :
    trim s ≠ "" := by
  intro ht
  have hall := todos_espacos_of_trim_vazio s ht
  apply h
  rw [apenasDigitos_data, List.filter_eq_nil_iff]
  intro c hc hdig
  have := ehEspaco_of_ehDigito c hdig
  rw [hall c hc] at this
  cases this

theorem clienteJs_validarCPF_congr (a b : String) (h : apenasDigitos a = apenasDigitos b) :
    ClienteJs.validarCPF a = ClienteJs.validarCPF b := by
  unfold ClienteJs.validarCPF
  rw [h]

/-- C26, counterexample: on the 12 digits `"123456789091"` the formatter of
`cliente.js` returns the bare digits and the formatter of `crudUpdate.js` /
`crudRead.js` / `crudDelete.js` returns `"123.456.789-091"`. -/
theorem formatarCPF_difere_com_doze_digitos :
    ClienteJs.formatarCPF "123456789091" = "123456789091" ∧
    CrudJs.formatarCPF "123456789091" = "123.456.789-091" ∧
    ClienteJs.formatarCPF "123456789091" ≠ CrudJs.formatarCPF "123456789091" := by
  decide

/-- C26, amended: the two implementations of `formatarCPF` return the same string
exactly on the inputs with at most 11 digits (the canonical form for 11 digits, the
bare digits for fewer); with more than 11 digits they differ. -/
theorem formatarCPF_iguais_iff (s : String) :
    ClienteJs.formatarCPF s = CrudJs.formatarCPF s ↔ (asciiDigitChars s).length ≤ 11 := by
  rw [asciiDigitChars_eq, clienteJs_formatarCPF_def, crudJs_formatarCPF_def, string_length_eq]
  constructor
  · intro h
    by_contra hgt
    have hne : (apenasDigitos s).data.length ≠ 11 := by omega
    rw [if_neg hne] at h
    obtain ⟨c0, c1, c2, c3, c4, c5, c6, c7, c8, c9, c10, r, hd⟩ :=
      exists_of_eleven_le (apenasDigitos s).data (by omega)
    have hall := apenasDigitos_all s
    have h2 := congrArg String.data h
    simp only [] at h2
    rw [hd, substituirPadrao_digitos _ _ _ _ _ _ _ _ _ _ _ r (fun c hc => hall c (by
      rw [hd]
      simp only [List.mem_cons, List.mem_singleton, List.not_mem_nil, or_false] at hc ⊢
      tauto))] at h2
    have h3 : c3 = '.' := by
      simp only [List.cons.injEq] at h2
      exact h2.2.2.2.1
    have h4 := hall c3 (by rw [hd]; simp)
    rw [h3] at h4
    exact absurd h4 (by decide)
  · intro hle
    by_cases h11 : (apenasDigitos s).data.length = 11
    · rw [if_pos h11]
    · rw [if_neg h11, substituirPadrao_short _ (by omega)]

/-- C27: two strings with exactly 11 ASCII digits and the same digit sequence give
the same result in `buscarClientePorCpf`: the first stored record whose cpf is the
canonical form of those digits, or no record. -/
theorem buscarClientePorCpf_pontuacao (clientes : List Cliente) (a b : String)
    (d0 d1 d2 d3 d4 d5 d6 d7 d8 d9 d10 : Char)
    (ha : asciiDigitChars a = [d0, d1, d2, d3, d4, d5, d6, d7, d8, d9, d10])
    (hb : asciiDigitChars b = [d0, d1, d2, d3, d4, d5, d6, d7, d8, d9, d10]) :
    ClienteJs.buscarClientePorCpf clientes a = ClienteJs.buscarClientePorCpf clientes b ∧
    ClienteJs.buscarClientePorCpf clientes a =
      clientes.find? (fun c =>
        c.cpf == ⟨[d0, d1, d2, '.', d3, d4, d5, '.', d6, d7, d8, '-', d9, d10]⟩) := by
  rw [asciiDigitChars_eq] at ha hb
  have key : ∀ x : String,
      (apenasDigitos x).data = [d0, d1, d2, d3, d4, d5, d6, d7, d8, d9, d10] →
      ClienteJs.buscarClientePorCpf clientes x =
        clientes.find? (fun c =>
          c.cpf == ⟨[d0, d1, d2, '.', d3, d4, d5, '.', d6, d7, d8, '-', d9, d10]⟩) := by
    intro x hx
    have ht := trim_ne_vazio_ne x (trim_ne_vazio_of_digito x (by rw [hx]; simp))
    unfold ClienteJs.buscarClientePorCpf
    rw [if_neg ht, clienteJs_formatarCPF_onze x _ _ _ _ _ _ _ _ _ _ _ hx]
  rw [key a ha, key b hb]
  exact ⟨rfl, rfl⟩

/-- Witness of C27: Ana looked up with and without punctuation. -/
theorem buscarClientePorCpf_pontuacao_witness :
    asciiDigitChars "123.456.789-09" =
      ['1', '2', '3', '4', '5', '6', '7', '8', '9', '0', '9'] ∧
    asciiDigitChars " 123 456 789 09" =
      ['1', '2', '3', '4', '5', '6', '7', '8', '9', '0', '9'] ∧
    ClienteJs.buscarClientePorCpf lojaExemplo "123.456.789-09" =
      ClienteJs.buscarClientePorCpf lojaExemplo " 123 456 789 09" :=
  ⟨by decide, by decide,
    (buscarClientePorCpf_pontuacao lojaExemplo "123.456.789-09" " 123 456 789 09"
      '1' '2' '3' '4' '5' '6' '7' '8' '9' '0' '9' (by decide) (by decide)).1⟩

/-- C28: the ASCII digits of `formatarCPF s` are the ASCII digits of `s`, in order,
and `validarCPF (formatarCPF s) = validarCPF s` (`cliente.js`). -/
theorem formatarCPF_preserva_digitos (s : String) :
    asciiDigitChars (ClienteJs.formatarCPF s) = asciiDigitChars s ∧
    ClienteJs.validarCPF (ClienteJs.formatarCPF s) = ClienteJs.validarCPF s := by
  constructor
  · rw [asciiDigitChars_eq, asciiDigitChars_eq, apenasDigitos_clienteJs_formatarCPF]
  · exact clienteJs_validarCPF_congr _ _ (apenasDigitos_clienteJs_formatarCPF s)

/-- C30: `"98765432100"` and `"88765432100"` are strings of 11 digits that differ
in exactly one position, and `validarCPF` of `cliente.js` accepts both. -/
theorem validarCPF_nao_detecta_um_digito :
    ∃ a b : String,
      a.length = 11 ∧ b.length = 11 ∧
      a.data.all ehDigito = true ∧ b.data.all ehDigito = true ∧
      posicoesDiferentes a b = 1 ∧
      ClienteJs.validarCPF a = true ∧ ClienteJs.validarCPF b = true :=
  ⟨"98765432100", "88765432100", by decide, by decide, by decide, by decide, by decide,
    by decide, by decide⟩

/-! ## Reactivation in `cliente.js` and the example data -/

theorem findIndex_cpf_congr (v : String) (l1 l2 : List Cliente)
    (h : l1.map (fun c => c.cpf) = l2.map (fun c => c.cpf)) :
    findIndex (fun c => c.cpf == v) l1 = findIndex (fun c => c.cpf == v) l2 := by
  induction l1 generalizing l2 with
  | nil =>
    cases l2 with
    | nil => rfl
    | cons y r2 => simp at h
  | cons x r1 ih =>
    cases l2 with
    | nil => simp at h
    | cons y r2 =>
      simp only [List.map_cons, List.cons.injEq] at h
      unfold findIndex
      rw [h.1, ih r2 h.2]

theorem lojaReativada_alcancavel : ClienteJs.Alcancavel lojaReativada := by
  have h1 := ClienteJs.Alcancavel.remover "2024-02-01" "987.654.321-00" false
    lojaExemplo_alcancavel
  have h2 := ClienteJs.Alcancavel.atualizar "2024-03-01" "987.654.321-00"
    (NovosDados.mk none none none (some true)) h1
  have e : (ClienteJs.atualizarCliente "2024-03-01"
      (ClienteJs.removerCliente "2024-02-01" lojaExemplo "987.654.321-00" false).2
      "987.654.321-00" (NovosDados.mk none none none (some true))).2 = lojaReativada := by
    decide
  rw [e] at h2
  exact h2

/-- C25, counterexample: Bia is deactivated with `removerCliente(cpf, false)` and
set active again with `atualizarCliente(cpf, {ativo: true})`; both calls return
true and the record is active and still carries the `data_desativacao` of the soft
delete, so a reachable store holds an active record with a `data_desativacao`. -/
theorem reativacao_nao_limpa_data_desativacao :
    (ClienteJs.removerCliente "2024-02-01" lojaExemplo "987.654.321-00" false).1 = true ∧
    ClienteJs.atualizarCliente "2024-03-01"
        (ClienteJs.removerCliente "2024-02-01" lojaExemplo "987.654.321-00" false).2
        "987.654.321-00" (NovosDados.mk none none none (some true)) =
      (true, lojaReativada) ∧
    lojaReativada.map (fun c => (c.ativo, c.data_desativacao)) =
      [(true, none), (true, some "2024-02-01")] ∧
    ¬ ∀ s : List Cliente, ClienteJs.Alcancavel s →
      ∀ r ∈ s, r.ativo = true → r.data_desativacao = none := by
  refine ⟨by decide, by decide, by decide, ?_⟩
  intro h
  have := h lojaReativada lojaReativada_alcancavel
  revert this
  decide

/-- C25, amended: on the JSON store of `cliente.js`, after `removerCliente(cpf,
false)` succeeds, `atualizarCliente(cpf, {ativo: true})` succeeds and leaves the
record with `ativo = true` and with the `data_desativacao` written by the soft
delete: the timestamp is not cleared on reactivation. -/
theorem reativacao_mantem_data_desativacao (t1 t2 : String) (clientes : List Cliente)
    (cpf : String)
    (h1 : (ClienteJs.removerCliente t1 clientes cpf false).1 = true) :
    (ClienteJs.atualizarCliente t2 (ClienteJs.removerCliente t1 clientes cpf false).2 cpf
      (NovosDados.mk none none none (some true))).1 = true ∧
    ∃ index r,
      findIndex (fun c => c.cpf == ClienteJs.formatarCPF cpf) clientes = some index ∧
      (ClienteJs.atualizarCliente t2 (ClienteJs.removerCliente t1 clientes cpf false).2 cpf
        (NovosDados.mk none none none (some true))).2[index]? = some r ∧
      r.ativo = true ∧ r.data_desativacao = some t1 := by
  rcases removerCliente_cases t1 clientes cpf false with ⟨-, e⟩ | ⟨index, alvo, hi, halvo, hc, e⟩
  · rw [e] at h1; exact absurd h1 (by simp)
  · rw [e]
    simp only [Bool.false_eq_true, if_false]
    obtain ⟨hlt, -⟩ := List.getElem?_eq_some.1 halvo
    have hmap := map_set_of_get? (fun c : Cliente => c.cpf) clientes index alvo
      { alvo with ativo := false, data_desativacao := some t1 } (by simpa using halvo) rfl
    have hi2 := findIndex_cpf_congr (ClienteJs.formatarCPF cpf) _ _ hmap
    rw [hi] at hi2
    have hget : (clientes.set index
        { alvo with ativo := false, data_desativacao := some t1 })[index]? =
        some { alvo with ativo := false, data_desativacao := some t1 } :=
      List.getElem?_set_self hlt
    rcases atualizarCliente_cases t2
        (clientes.set index { alvo with ativo := false, data_desativacao := some t1 }) cpf
        (NovosDados.mk none none none (some true)) with
      ⟨hn, -⟩ | ⟨i3, a3, hi3, ha3, -, ⟨⟨em, hem, -⟩, -⟩ | ⟨-, e3⟩⟩
    · rw [hi2] at hn; cases hn
    · cases hem
    · rw [hi2] at hi3
      cases hi3
      rw [hget] at ha3
      cases ha3
      rw [e3]
      refine ⟨rfl, index, _, hi, List.getElem?_set_self (by simpa using hlt), rfl, rfl⟩

/-- Witness of C25 amended: Bia in the store of Ana and Bia. -/
theorem reativacao_mantem_data_desativacao_witness :
    (ClienteJs.removerCliente "2024-02-01" lojaExemplo "987.654.321-00" false).1 = true ∧
    (ClienteJs.atualizarCliente "2024-03-01"
      (ClienteJs.removerCliente "2024-02-01" lojaExemplo "987.654.321-00" false).2
      "987.654.321-00" (NovosDados.mk none none none (some true))).1 = true :=
  ⟨by decide,
    (reativacao_mantem_data_desativacao "2024-02-01" "2024-03-01" lojaExemplo "987.654.321-00"
      (by decide)).1⟩

/-- C29, the code at the failing input: of the four cpfs of `clientesExemplo` only
`"98765432100"` passes `validarCPF`, and `adicionarVariosClientes(clientesExemplo)`
on the empty store adds one client, Maria Santos, with id 1. -/
theorem adicionarVariosClientes_exemplo (agora : Nat → String) :
    ClienteJs.clientesExemplo.map (fun c => ClienteJs.validarCPF c.cpf) =
      [false, true, false, false] ∧
    ClienteJs.adicionarVariosClientes agora [] ClienteJs.clientesExemplo =
      (1, [Cliente.mk 1 "Maria Santos" "987.654.321-00" (some "maria.santos@email.com")
        (some "(11) 99999-2222") (agora 1) true none none]) := by
  refine ⟨by decide, ?_⟩
  have v1 : ClienteJs.validarCPF "12345678901" = false := by decide
  have v3 : ClienteJs.validarCPF "11122233344" = false := by decide
  have v4 : ClienteJs.validarCPF "55566677788" = false := by decide
  have a2 : ClienteJs.adicionarCliente (agora 1) [] "Maria Santos" "98765432100"
      "maria.santos@email.com" "(11) 99999-2222" =
      (true, [Cliente.mk 1 "Maria Santos" "987.654.321-00" (some "maria.santos@email.com")
        (some "(11) 99999-2222") (agora 1) true none none]) := by
    rcases adicionarCliente_cases (agora 1) [] "Maria Santos" "98765432100"
        "maria.santos@email.com" "(11) 99999-2222" with ⟨-, r⟩ | ⟨e, -⟩
    · rcases r with r | r | r | ⟨x, hx, -⟩ | ⟨-, r⟩
      · exact absurd r (by decide)
      · exact absurd r (by decide)
      · exact absurd r (by decide)
      · cases hx
      · exact absurd r (by decide)
    · rw [e]
      have e1 : trim "Maria Santos" = "Maria Santos" := by decide
      have e2 : ClienteJs.formatarCPF "98765432100" = "987.654.321-00" := by decide
      have e3 : ouNull (trim "maria.santos@email.com") = some "maria.santos@email.com" := by
        decide
      have e4 : ouNull (trim "(11) 99999-2222") = some "(11) 99999-2222" := by decide
      rw [e1, e2, e3, e4]
      rfl
  simp only [ClienteJs.adicionarVariosClientes, ClienteJs.clientesExemplo,
    ClienteJs.adicionarVariosDesde, ClienteJs.ouVazio,
    adicionarCliente_of_cpf_invalido _ _ _ _ _ _ v1,
    adicionarCliente_of_cpf_invalido _ _ _ _ _ _ v3,
    adicionarCliente_of_cpf_invalido _ _ _ _ _ _ v4, a2, Bool.false_eq_true, if_false, if_true,
    Nat.zero_add]

/-! ## The document store of `crudDelete.js` -/

theorem findIndex_eq_some {α : Type} {p : α → Bool} {l : List α} {i : Nat} {a : α}
    (h : l[i]? = some a) (hp : p a = true)
    (hmin : ∀ j b, j < i → l[j]? = some b → p b = false) : findIndex p l = some i := by
  cases hf : findIndex p l with
  | none =>
    have := findIndex_none hf a (List.getElem?_mem h)
    rw [hp] at this
    cases this
  | some k =>
    obtain ⟨b, hb, hpb, hk⟩ := findIndex_some hf
    rcases Nat.lt_trichotomy k i with hlt | heq | hgt
    · have := hmin k b hlt hb
      rw [hpb] at this
      cases this
    · rw [heq]
    · have := hk i a hgt h
      rw [hp] at this
      cases this

theorem indice_unico {l : List Documento} (hunico : (l.map (fun d => d.cpf)).Nodup)
    {i j : Nat} {a b : Documento} (ha : l[i]? = some a) (hb : l[j]? = some b)
    (hab : a.cpf = b.cpf) : i = j := by
  have h1 : (l.map (fun d => d.cpf))[i]? = some a.cpf := by simp [ha]
  have h2 : (l.map (fun d => d.cpf))[j]? = some a.cpf := by simp [hb, hab]
  obtain ⟨hi1, -⟩ := List.getElem?_eq_some.1 h1
  obtain ⟨hi2, -⟩ := List.getElem?_eq_some.1 h2
  rw [List.nodup_iff_getElem?_ne_getElem?] at hunico
  rcases Nat.lt_trichotomy i j with hlt | heq | hgt
  · exact absurd (by rw [h1, h2]) (hunico i j hlt hi2)
  · exact heq
  · exact absurd (by rw [h1, h2]) (hunico j i hgt hi1)

theorem findOneAndUpdate_some (filtro : Documento → Bool) (atualizacao : Documento → Documento)
    (colecao : List Documento) (i : Nat) (d : Documento)
    (h : findIndex filtro colecao = some i) (hd : colecao[i]? = some d) :
    findOneAndUpdate filtro atualizacao colecao =
      (some (atualizacao d), colecao.set i (atualizacao d)) := by
  unfold findOneAndUpdate
  have hg : colecao.get? i = some d := by simpa using hd
  rw [h]
  simp only [hg]

theorem findOneAndUpdate_none (filtro : Documento → Bool) (atualizacao : Documento → Documento)
    (colecao : List Documento) (h : findIndex filtro colecao = none) :
    findOneAndUpdate filtro atualizacao colecao = (none, colecao) := by
  unfold findOneAndUpdate
  rw [h]

/-- C24: on a collection that obeys the unique index on `cpf` and holds an active
document `d` with the canonical cpf, the soft delete sets `ativo = false` and
`data_exclusao` on `d`; the reactivation that follows returns true and leaves `d`
with `ativo = true`, no `data_exclusao` and every other field but
`data_atualizacao` as it was; a reactivation of the active document returns false
and changes nothing. -/
theorem softDelete_reativar_roundtrip (t1 t1b t2 : String) (colecao : List Documento)
    (cpf : String) (i : Nat) (d : Documento)
    (hunico : (colecao.map (fun x => x.cpf)).Nodup)
    (hd : colecao[i]? = some d) (hcpf : d.cpf = CrudJs.formatarCPF cpf)
    (hativo : d.ativo = true) :
    CrudJs.removerClienteMongoDBPorCPF t1 t1b colecao cpf true =
      (true, colecao.set i
        { d with ativo := false, data_exclusao := some t1, data_atualizacao := t1b }) ∧
    CrudJs.reativarClienteMongoDB t2
        (CrudJs.removerClienteMongoDBPorCPF t1 t1b colecao cpf true).2 cpf =
      (true, colecao.set i
        { d with ativo := true, data_exclusao := none, data_atualizacao := t2 }) ∧
    (∃ final, (CrudJs.reativarClienteMongoDB t2
        (CrudJs.removerClienteMongoDBPorCPF t1 t1b colecao cpf true).2 cpf).2[i]? =
          some final ∧
      final.ativo = true ∧ final.data_exclusao = none ∧ final.id = d.id ∧
      final.nome = d.nome ∧ final.cpf = d.cpf ∧ final.email = d.email ∧
      final.telefone = d.telefone ∧ final.endereco = d.endereco ∧
      final.data_cadastro = d.data_cadastro) ∧
    CrudJs.reativarClienteMongoDB t2 colecao cpf = (false, colecao) := by
  obtain ⟨hlt, -⟩ := List.getElem?_eq_some.1 hd
  have houtros : ∀ j b, j ≠ i → colecao[j]? = some b → b.cpf ≠ CrudJs.formatarCPF cpf := by
    intro j b hj hb hbc
    exact hj (indice_unico hunico hb hd (by rw [hbc, hcpf]))
  have f1 : findIndex (fun x : Documento => x.cpf == CrudJs.formatarCPF cpf && x.ativo == true)
      colecao = some i := by
    apply findIndex_eq_some hd
    · simp [hcpf, hativo]
    · intro j b hj hb
      have := houtros j b (by omega) hb
      simp [this]
  have e1 : CrudJs.removerClienteMongoDBPorCPF t1 t1b colecao cpf true =
      (true, colecao.set i
        { d with ativo := false, data_exclusao := some t1, data_atualizacao := t1b }) := by
    unfold CrudJs.removerClienteMongoDBPorCPF
    simp only [if_true]
    rw [findOneAndUpdate_some _ _ colecao i d f1 hd]
  have hd2 : (colecao.set i
      { d with ativo := false, data_exclusao := some t1, data_atualizacao := t1b })[i]? =
      some { d with ativo := false, data_exclusao := some t1, data_atualizacao := t1b } :=
    List.getElem?_set_self hlt
  have f2 : findIndex (fun x : Documento => x.cpf == CrudJs.formatarCPF cpf && x.ativo == false)
      (colecao.set i
        { d with ativo := false, data_exclusao := some t1, data_atualizacao := t1b }) =
      some i := by
    apply findIndex_eq_some hd2
    · simp [hcpf]
    · intro j b hj hb
      rw [List.getElem?_set_ne (by omega)] at hb
      have := houtros j b (by omega) hb
      simp [this]
  have e2 : CrudJs.reativarClienteMongoDB t2
      (colecao.set i
        { d with ativo := false, data_exclusao := some t1, data_atualizacao := t1b }) cpf =
      (true, colecao.set i
        { d with ativo := true, data_exclusao := none, data_atualizacao := t2 }) := by
    unfold CrudJs.reativarClienteMongoDB
    simp only []
    rw [findOneAndUpdate_some _ _ _ i _ f2 hd2]
    simp only [List.set_set]
  have f3 : findIndex (fun x : Documento => x.cpf == CrudJs.formatarCPF cpf && x.ativo == false)
      colecao = none := by
    cases hf : findIndex (fun x : Documento =>
        x.cpf == CrudJs.formatarCPF cpf && x.ativo == false) colecao with
    | none => rfl
    | some k =>
      obtain ⟨b, hb, hpb, -⟩ := findIndex_some hf
      simp only [Bool.and_eq_true, beq_iff_eq] at hpb
      have hk : k = i := by
        by_contra hne
        exact houtros k b hne hb hpb.1
      subst hk
      rw [hd] at hb
      cases hb
      rw [hativo] at hpb
      exact absurd hpb.2 (by decide)
  refine ⟨e1, ?_, ?_, ?_⟩
  · rw [e1]
    exact e2
  · rw [e1]
    simp only []
    rw [e2]
    exact ⟨_, List.getElem?_set_self hlt, rfl, rfl, rfl, rfl, rfl, rfl, rfl, rfl, rfl⟩
  · unfold CrudJs.reativarClienteMongoDB
    simp only []
    rw [findOneAndUpdate_none _ _ colecao f3]

/-- Witness of C24: Bia in the collection of Ana and Bia. -/
theorem softDelete_reativar_roundtrip_witness :
    (colecaoExemplo.map (fun x => x.cpf)).Nodup ∧
    colecaoExemplo[1]? =
      some (Documento.mk "b2" "Bia" "987.654.321-00" (some "bia@mail.com") none none true
        "2024-01-02" "2024-01-02" none) ∧
    "987.654.321-00" = CrudJs.formatarCPF "98765432100" ∧
    CrudJs.reativarClienteMongoDB "2024-03-01"
        (CrudJs.removerClienteMongoDBPorCPF "2024-02-01" "2024-02-01" colecaoExemplo
          "98765432100" true).2 "98765432100" =
      (true, colecaoExemplo.set 1
        { Documento.mk "b2" "Bia" "987.654.321-00" (some "bia@mail.com") none none true
            "2024-01-02" "2024-01-02" none with
          ativo := true, data_exclusao := none, data_atualizacao := "2024-03-01" }) :=
  ⟨by decide, rfl, by decide,
    (softDelete_reativar_roundtrip "2024-02-01" "2024-02-01" "2024-03-01" colecaoExemplo
      "98765432100" 1
      (Documento.mk "b2" "Bia" "987.654.321-00" (some "bia@mail.com") none none true
        "2024-01-02" "2024-01-02" none) (by decide) rfl (by decide) rfl).2.1⟩

end DatabaseNoSQL
